import Mathlib

/-! # packer-plugin-xenserver: common configuration

A shallow embedding of `builder/xenserver/common/common_config.go`:
`CommonConfig.Prepare`, `CommonConfig.ShouldKeepVM`, `CommonConfig.GetSR`
and `CommonConfig.GetISOSR`, together with the configuration-time checks of the
ISO keys of `config.go`, followed by the properties proved about them.

Conventions of the embedding:

* a Go `string` is a `String`, a Go `uint` is a `Nat` (the code only compares
  these numbers, it never does arithmetic on them);
* a Go `error` is its message (`none` is the `nil` error);
* a Go slice is `Option (List α)`, `none` being the `nil` slice;
* a function that returns `(value, error)` returns a pair here, so that the
  value returned next to a non-nil error is visible;
* what the code obtains from outside the package (the duration parser, the
  file system, the key parser, the pool connection) is a parameter.
-/

namespace XenServer

/-! ## Data model -/

/-- A Go `error`, identified with its message. -/
abbrev Error := String

/-- Go `time.Duration`: a signed count of nanoseconds. -/
abbrev Duration := Int

/-- Go `time.Second`. -/
def Second : Duration := 1000000000

/-- Go `time.Minute`. -/
def Minute : Duration := 60 * Second

/-- The part of `common.PackerConfig` that `Prepare` reads. -/
structure PackerConfig where
  PackerBuildName : String
deriving DecidableEq, Repr

/-- The struct `CommonConfig` (common_config.go, lines 17-81), field by field.
The embedded `SSHConfig` struct is declared elsewhere; its type is the
parameter `σ`. -/
structure CommonConfig (σ : Type) where
  Username : String
  Password : String
  HostIp : String
  VMName : String
  VMDescription : String
  SrName : String
  SrISOName : String
  FloppyFiles : Option (List String)
  NetworkNames : Option (List String)
  ExportNetworkNames : Option (List String)
  HostPortMin : Nat
  HostPortMax : Nat
  BootCommand : Option (List String)
  ShutdownCommand : String
  RawBootWait : String
  BootWait : Duration
  ToolsIsoName : String
  HTTPDir : String
  HTTPPortMin : Nat
  HTTPPortMax : Nat
  SSHKeyPath : String
  SSHPassword : String
  SSHPort : Nat
  SSHUser : String
  SSHConfig : σ
  RawSSHWaitTimeout : String
  SSHWaitTimeout : Duration
  OutputDir : String
  Format : String
  KeepVM : String
  IPGetter : String
deriving DecidableEq, Repr

/-- The zero value of `CommonConfig`: what a configuration with no key set
decodes to. -/
def CommonConfig.zero {σ : Type} (s : σ) : CommonConfig σ where
  Username := ""
  Password := ""
  HostIp := ""
  VMName := ""
  VMDescription := ""
  SrName := ""
  SrISOName := ""
  FloppyFiles := none
  NetworkNames := none
  ExportNetworkNames := none
  HostPortMin := 0
  HostPortMax := 0
  BootCommand := none
  ShutdownCommand := ""
  RawBootWait := ""
  BootWait := 0
  ToolsIsoName := ""
  HTTPDir := ""
  HTTPPortMin := 0
  HTTPPortMax := 0
  SSHKeyPath := ""
  SSHPassword := ""
  SSHPort := 0
  SSHUser := ""
  SSHConfig := s
  RawSSHWaitTimeout := ""
  SSHWaitTimeout := 0
  OutputDir := ""
  Format := ""
  KeepVM := ""
  IPGetter := ""

/-- What `Prepare` asks of its surroundings: `time.ParseDuration`, `os.Stat`
and the package's `FileSigner`. The last two are used for their error only. -/
structure Env where
  ParseDuration : String → Duration × Option Error
  Stat : String → Option Error
  FileSigner : String → Option Error

/-! ## The state bag read by `ShouldKeepVM` -/

/-- The interface `multistep.StateBag`, reduced to the method the code calls. -/
structure StateBag (V : Type) where
  GetOk : String → Option V

/-- The key `multistep.StateCancelled`. -/
def StateCancelled : String := "cancelled"

/-- The key `multistep.StateHalted`. -/
def StateHalted : String := "halted"

/-- The outcome of a call that may panic. -/
inductive Outcome (α : Type) where
  | returns (a : α)
  | panics (msg : String)
deriving DecidableEq, Repr

/-- `CommonConfig.ShouldKeepVM` (common_config.go, lines 232-246). -/
def CommonConfig.ShouldKeepVM {σ V : Type} (c : CommonConfig σ) (state : StateBag V) :
    Outcome Bool :=
  if c.KeepVM = "always" then
    .returns true
  else if c.KeepVM = "never" then
    .returns false
  else if c.KeepVM = "on_success" then
    let cancelled := (state.GetOk StateCancelled).isSome
    let halted := (state.GetOk StateHalted).isSome
    .returns (!(cancelled || halted))
  else
    .panics ("Unknown keep_vm value '" ++ c.KeepVM ++ "'")

/-! ## The pool connection read by `GetSR` and `GetISOSR` -/

/-- The type `xenapi.SRRef`, a string; its zero value is the empty reference. -/
abbrev SRRef := String

/-- The type `xenapi.HostRef`. -/
abbrev HostRef := String

/-- The type `xenapi.PoolRef`. -/
abbrev PoolRef := String

/-- The fields of `xenapi.PoolRecord` that `GetSR` reads. -/
structure PoolRecord where
  Master : HostRef
  DefaultSR : SRRef
deriving DecidableEq, Repr

/-- A query sent to the pool. -/
inductive Query where
  | GetThisHost
  | PoolGetAllRecords
  | SRGetByNameLabel (label : String)
deriving DecidableEq, Repr

/-- The answers of a pool connection. `PoolGetAllRecords` answers with a Go
map; it is given as the list of its entries in the order the `range` loop
visits them. -/
structure Connection where
  GetThisHost : HostRef × Option Error
  PoolGetAllRecords : List (PoolRef × PoolRecord) × Option Error
  SRGetByNameLabel : String → List SRRef × Option Error

/-- The result of a resolver call: the pair `(xenapi.SRRef, error)` it returns
and the queries it sent, in order. -/
structure Resolved where
  ref : SRRef
  err : Option Error
  queries : List Query
deriving DecidableEq, Repr

/-- The loop of `GetSR` (lines 263-267): the default SR of the first visited
pool whose master is `hostRef`. -/
def findDefaultSR (hostRef : HostRef) : List (PoolRef × PoolRecord) → Option SRRef
  | [] => none
  | (_, pool) :: rest =>
    if pool.Master = hostRef then some pool.DefaultSR else findDefaultSR hostRef rest

/-- The `switch` on `len(srs)` shared by `GetSR` (lines 279-286) and `GetISOSR`
(lines 303-310); `name` is the string the messages print, `qs` the queries
sent so far. -/
def selectSR (name : String) (qs : List Query) : List SRRef → Resolved
  | [] => ⟨"", some ("Couldn't find a SR with the specified name-label '" ++ name ++ "'"), qs⟩
  | [sr] => ⟨sr, none, qs⟩
  | _ :: _ :: _ =>
    ⟨"", some ("Found more than one SR with the name '" ++ name ++
      "'. The name must be unique"), qs⟩

/-- `CommonConfig.GetSR` (common_config.go, lines 248-288). -/
def CommonConfig.GetSR {σ : Type} (config : CommonConfig σ) (c : Connection) : Resolved :=
  let srRef : SRRef := ""
  if config.SrName = "" then
    match c.GetThisHost with
    | (_, some err) => ⟨srRef, some err, [.GetThisHost]⟩
    | (hostRef, none) =>
      match c.PoolGetAllRecords with
      | (_, some err) => ⟨srRef, some err, [.GetThisHost, .PoolGetAllRecords]⟩
      | (pools, none) =>
        match findDefaultSR hostRef pools with
        | some sr => ⟨sr, none, [.GetThisHost, .PoolGetAllRecords]⟩
        | none =>
          ⟨srRef, some ("failed to find default SR on host '" ++ hostRef ++ "'"),
            [.GetThisHost, .PoolGetAllRecords]⟩
  else
    match c.SRGetByNameLabel config.SrName with
    | (_, some err) => ⟨srRef, some err, [.SRGetByNameLabel config.SrName]⟩
    | (srs, none) => selectSR config.SrName [.SRGetByNameLabel config.SrName] srs

/-- `CommonConfig.GetISOSR` (common_config.go, lines 290-312). The query and
both messages use `config.SrName`, as the source does. -/
def CommonConfig.GetISOSR {σ : Type} (config : CommonConfig σ) (c : Connection) : Resolved :=
  let srRef : SRRef := ""
  if config.SrISOName = "" then
    ⟨srRef, some "sr_iso_name must be specified in the packer configuration", []⟩
  else
    match c.SRGetByNameLabel config.SrName with
    | (_, some err) => ⟨srRef, some err, [.SRGetByNameLabel config.SrName]⟩
    | (srs, none) => selectSR config.SrName [.SRGetByNameLabel config.SrName] srs

/-! ## Prepare: the defaults (lines 87-157)

One definition for each guarded assignment of the source, in source order. -/

/-- Lines 89-91: the default of `HostPortMin`. -/
def CommonConfig.defaultHostPortMin {σ : Type} (c : CommonConfig σ) : CommonConfig σ :=
  if c.HostPortMin = 0 then { c with HostPortMin := 5900 } else c

/-- Lines 93-95: the default of `HostPortMax`. -/
def CommonConfig.defaultHostPortMax {σ : Type} (c : CommonConfig σ) : CommonConfig σ :=
  if c.HostPortMax = 0 then { c with HostPortMax := 6000 } else c

/-- Lines 97-99: the default of `RawBootWait`. -/
def CommonConfig.defaultRawBootWait {σ : Type} (c : CommonConfig σ) : CommonConfig σ :=
  if c.RawBootWait = "" then { c with RawBootWait := "5s" } else c

/-- Lines 101-103: the default of `ToolsIsoName`. -/
def CommonConfig.defaultToolsIsoName {σ : Type} (c : CommonConfig σ) : CommonConfig σ :=
  if c.ToolsIsoName = "" then { c with ToolsIsoName := "xs-tools.iso" } else c

/-- Lines 105-107: the default of `HTTPPortMin`. -/
def CommonConfig.defaultHTTPPortMin {σ : Type} (c : CommonConfig σ) : CommonConfig σ :=
  if c.HTTPPortMin = 0 then { c with HTTPPortMin := 8000 } else c

/-- Lines 109-111: the default of `HTTPPortMax`. -/
def CommonConfig.defaultHTTPPortMax {σ : Type} (c : CommonConfig σ) : CommonConfig σ :=
  if c.HTTPPortMax = 0 then { c with HTTPPortMax := 9000 } else c

/-- Lines 113-115: the default of `RawSSHWaitTimeout`. -/
def CommonConfig.defaultRawSSHWaitTimeout {σ : Type} (c : CommonConfig σ) : CommonConfig σ :=
  if c.RawSSHWaitTimeout = "" then { c with RawSSHWaitTimeout := "200m" } else c

/-- Lines 117-119: the default of `FloppyFiles`. -/
def CommonConfig.defaultFloppyFiles {σ : Type} (c : CommonConfig σ) : CommonConfig σ :=
  if c.FloppyFiles = none then { c with FloppyFiles := some [] } else c

/-- Lines 131-133: the default of `SSHPort`. -/
def CommonConfig.defaultSSHPort {σ : Type} (c : CommonConfig σ) : CommonConfig σ :=
  if c.SSHPort = 0 then { c with SSHPort := 22 } else c

/-- Lines 135-137: the default of `RawSSHWaitTimeout`. This is the second guarded assignment of the field. -/
def CommonConfig.defaultRawSSHWaitTimeout2 {σ : Type} (c : CommonConfig σ) : CommonConfig σ :=
  if c.RawSSHWaitTimeout = "" then { c with RawSSHWaitTimeout := "20m" } else c

/-- Lines 139-141: the default of `OutputDir`. -/
def CommonConfig.defaultOutputDir {σ : Type} (c : CommonConfig σ) (pc : PackerConfig) : CommonConfig σ :=
  if c.OutputDir = "" then { c with OutputDir := "output-" ++ pc.PackerBuildName } else c

/-- Lines 143-145: the default of `VMName`. -/
def CommonConfig.defaultVMName {σ : Type} (c : CommonConfig σ) (pc : PackerConfig) : CommonConfig σ :=
  if c.VMName = "" then { c with VMName := "packer-" ++ pc.PackerBuildName ++ "-\x7b\x7btimestamp\x7d\x7d" } else c

/-- Lines 147-149: the default of `Format`. -/
def CommonConfig.defaultFormat {σ : Type} (c : CommonConfig σ) : CommonConfig σ :=
  if c.Format = "" then { c with Format := "xva" } else c

/-- Lines 151-153: the default of `KeepVM`. -/
def CommonConfig.defaultKeepVM {σ : Type} (c : CommonConfig σ) : CommonConfig σ :=
  if c.KeepVM = "" then { c with KeepVM := "never" } else c

/-- Lines 155-157: the default of `IPGetter`. -/
def CommonConfig.defaultIPGetter {σ : Type} (c : CommonConfig σ) : CommonConfig σ :=
  if c.IPGetter = "" then { c with IPGetter := "auto" } else c

/-! ## Prepare -/

/-- The block "Set default values" of `Prepare` (lines 87-157). -/
def CommonConfig.setDefaults {σ : Type} (c : CommonConfig σ) (pc : PackerConfig) :
    CommonConfig σ :=
  let c := c.defaultHostPortMin
  let c := c.defaultHostPortMax
  let c := c.defaultRawBootWait
  let c := c.defaultToolsIsoName
  let c := c.defaultHTTPPortMin
  let c := c.defaultHTTPPortMax
  let c := c.defaultRawSSHWaitTimeout
  let c := c.defaultFloppyFiles
  let c := c.defaultSSHPort
  let c := c.defaultRawSSHWaitTimeout2
  let c := c.defaultOutputDir pc
  let c := c.defaultVMName pc
  let c := c.defaultFormat
  let c := c.defaultKeepVM
  let c := c.defaultIPGetter
  c

/-- The block "Validation" of `Prepare` (lines 159-228), run on the
configuration the defaults left. It returns the error list and the
configuration with the two parsed durations stored. -/
def CommonConfig.validation {σ : Type} (c : CommonConfig σ) (env : Env) :
    List Error × CommonConfig σ :=
  let errs : List Error := []
  let errs := if c.Username = "" then errs ++ ["remote_username must be specified."] else errs
  let errs := if c.Password = "" then errs ++ ["remote_password must be specified."] else errs
  let errs := if c.HostIp = "" then errs ++ ["remote_host must be specified."] else errs
  let errs := if c.HostPortMin > c.HostPortMax then
    errs ++ ["the host min port must be less than the max"] else errs
  let errs := if c.HTTPPortMin > c.HTTPPortMax then
    errs ++ ["the HTTP min port must be less than the max"] else errs
  let parsed := env.ParseDuration c.RawBootWait
  let c := { c with BootWait := parsed.1 }
  let errs := match parsed.2 with
    | some err => errs ++ ["Failed to parse boot_wait: " ++ err]
    | none => errs
  let errs := if c.SSHKeyPath ≠ "" then
      match env.Stat c.SSHKeyPath with
      | some err => errs ++ ["ssh_key_path is invalid: " ++ err]
      | none =>
        match env.FileSigner c.SSHKeyPath with
        | some err => errs ++ ["ssh_key_path is invalid: " ++ err]
        | none => errs
    else errs
  let errs := if c.SSHUser = "" then errs ++ ["An ssh_username must be specified."] else errs
  let parsed := env.ParseDuration c.RawSSHWaitTimeout
  let c := { c with SSHWaitTimeout := parsed.1 }
  let errs := match parsed.2 with
    | some err => errs ++ ["Failed to parse ssh_wait_timeout: " ++ err]
    | none => errs
  let errs := if c.Format ∈ ["xva", "xva_compressed", "vdi_raw", "vdi_vhd", "none"] then errs
    else errs ++ ["format must be one of 'xva', 'vdi_raw', 'vdi_vhd', 'none'"]
  let errs := if c.KeepVM ∈ ["always", "never", "on_success"] then errs
    else errs ++ ["keep_vm must be one of 'always', 'never', 'on_success'"]
  let errs := if c.IPGetter ∈ ["auto", "tools", "http"] then errs
    else errs ++ ["ip_getter must be one of 'auto', 'tools', 'http'"]
  (errs, c)

/-- `CommonConfig.Prepare` (common_config.go, lines 83-229): the defaults, then
the validation. The receiver is updated in place in the source; here the
updated configuration is returned next to the error list. The argument `ctx`
is not used by the source. -/
def CommonConfig.Prepare {σ : Type} (c : CommonConfig σ) (env : Env) (pc : PackerConfig) :
    List Error × CommonConfig σ :=
  (c.setDefaults pc).validation env

/-! ## The validation rules, as the specification lists them -/

/-- A validation rule evaluated on a configuration: whether it is violated,
and the error `Prepare` reports for it when it is. -/
structure Rule where
  violated : Bool
  error : Error
deriving DecidableEq, Repr

/-- The twelve rules of the specification, in its order, evaluated on a
configuration `d` whose defaults are filled in: username empty, password
empty, host empty, host port min > max, HTTP port min > max, boot_wait
unparsable, ssh key path given but missing or not a valid signer, ssh username
empty, ssh_wait_timeout unparsable, format, keep_vm and ip_getter outside
their sets. -/
def rules {σ : Type} (env : Env) (d : CommonConfig σ) : List Rule :=
  [ ⟨decide (d.Username = ""), "remote_username must be specified."⟩,
    ⟨decide (d.Password = ""), "remote_password must be specified."⟩,
    ⟨decide (d.HostIp = ""), "remote_host must be specified."⟩,
    ⟨decide (d.HostPortMin > d.HostPortMax), "the host min port must be less than the max"⟩,
    ⟨decide (d.HTTPPortMin > d.HTTPPortMax), "the HTTP min port must be less than the max"⟩,
    ⟨(env.ParseDuration d.RawBootWait).2.isSome,
      "Failed to parse boot_wait: " ++ (env.ParseDuration d.RawBootWait).2.getD ""⟩,
    ⟨decide (d.SSHKeyPath ≠ "") &&
        ((env.Stat d.SSHKeyPath).isSome || (env.FileSigner d.SSHKeyPath).isSome),
      "ssh_key_path is invalid: " ++
        ((env.Stat d.SSHKeyPath).getD ((env.FileSigner d.SSHKeyPath).getD ""))⟩,
    ⟨decide (d.SSHUser = ""), "An ssh_username must be specified."⟩,
    ⟨(env.ParseDuration d.RawSSHWaitTimeout).2.isSome,
      "Failed to parse ssh_wait_timeout: " ++ (env.ParseDuration d.RawSSHWaitTimeout).2.getD ""⟩,
    ⟨decide (d.Format ∉ ["xva", "xva_compressed", "vdi_raw", "vdi_vhd", "none"]),
      "format must be one of 'xva', 'vdi_raw', 'vdi_vhd', 'none'"⟩,
    ⟨decide (d.KeepVM ∉ ["always", "never", "on_success"]),
      "keep_vm must be one of 'always', 'never', 'on_success'"⟩,
    ⟨decide (d.IPGetter ∉ ["auto", "tools", "http"]),
      "ip_getter must be one of 'auto', 'tools', 'http'"⟩ ]

/-- The errors of the violated rules, in the order of the rules. -/
def reported (rs : List Rule) : List Error :=
  (rs.filter (·.violated)).map (·.error)

/-- The host port range error of `Prepare` (line 174). -/
def hostPortError : Error := "the host min port must be less than the max"

/-- The HTTP port range error of `Prepare` (line 178). -/
def httpPortError : Error := "the HTTP min port must be less than the max"

/-! ## Sample inputs -/

/-- A sample environment: the durations "5s", "200m" and "20m" parse, no other
string does; every path exists and holds a valid key. -/
def sampleEnv : Env where
  ParseDuration := fun s =>
    if s = "5s" then (5 * Second, none)
    else if s = "200m" then (200 * Minute, none)
    else if s = "20m" then (20 * Minute, none)
    else (0, some ("time: invalid duration " ++ s))
  Stat := fun _ => none
  FileSigner := fun _ => none

/-- The common keys of `testConfig` (builder_test.go, lines 12-25). -/
def testConfig : CommonConfig Unit :=
  { CommonConfig.zero () with
    HostIp := "localhost"
    Username := "admin"
    Password := "admin"
    VMName := "foo"
    ShutdownCommand := "yes"
    SSHUser := "foo" }

/-- The build name of `testConfig`. -/
def testBuild : PackerConfig := ⟨"foo"⟩

/-- A state bag holding exactly the given keys. -/
def bagOf (keys : List String) : StateBag Unit where
  GetOk := fun k => if k ∈ keys then some () else none

/-- A pool with host `host0`, one pool record whose master is `host0`, one
storage repository labelled "vm-store", one labelled "iso-store" and two
labelled "twin". -/
def samplePool : Connection where
  GetThisHost := ("OpaqueRef:host0", none)
  PoolGetAllRecords :=
    ([("OpaqueRef:pool0", ⟨"OpaqueRef:host0", "OpaqueRef:sr-default"⟩)], none)
  SRGetByNameLabel := fun label =>
    if label = "vm-store" then (["OpaqueRef:sr-vm"], none)
    else if label = "iso-store" then (["OpaqueRef:sr-iso"], none)
    else if label = "twin" then (["OpaqueRef:sr-a", "OpaqueRef:sr-b"], none)
    else ([], none)

/-! ## The fixed error messages of `Prepare` -/

/-- The error for an empty `Username` (line 162). -/
def usernameError : Error := "remote_username must be specified."

/-- The error for an empty `Password` (line 166). -/
def passwordError : Error := "remote_password must be specified."

/-- The error for an empty `HostIp` (line 170). -/
def hostError : Error := "remote_host must be specified."

/-- The error for an empty `SSHUser` (line 202). -/
def sshUserError : Error := "An ssh_username must be specified."

/-- The error for a `Format` outside its set (line 213). -/
def formatError : Error := "format must be one of 'xva', 'vdi_raw', 'vdi_vhd', 'none'"

/-- The error for a `KeepVM` outside its set (line 219). -/
def keepVMError : Error := "keep_vm must be one of 'always', 'never', 'on_success'"

/-- The error for an `IPGetter` outside its set (line 225). -/
def ipGetterError : Error := "ip_getter must be one of 'auto', 'tools', 'http'"

/-- The common keys of the example configuration of the specification:
remote_username "admin", remote_password "admin", remote_host "localhost",
sr_name empty, sr_iso_name "iso-store", every other key unset. -/
def specExample : CommonConfig Unit :=
  { CommonConfig.zero () with
    Username := "admin"
    Password := "admin"
    HostIp := "localhost"
    SrName := ""
    SrISOName := "iso-store" }

/-- A sample environment with signed durations: "-5s" parses as minus five
seconds and "5s", "200m", "20m" as in `sampleEnv`, which is how
`time.ParseDuration` reads them (a duration string is a possibly signed
sequence of decimal numbers with unit suffixes); no other string parses. -/
def signedEnv : Env where
  ParseDuration := fun s =>
    if s = "-5s" then (-5 * Second, none)
    else if s = "5s" then (5 * Second, none)
    else if s = "200m" then (200 * Minute, none)
    else if s = "20m" then (20 * Minute, none)
    else (0, some ("time: invalid duration " ++ s))
  Stat := fun _ => none
  FileSigner := fun _ => none

/-- The sample pool seen from a host that is the master of no pool record. -/
def orphanPool : Connection :=
  { samplePool with GetThisHost := ("OpaqueRef:host1", none) }

/-- A connection on which every query fails with "connection refused". -/
def downPool : Connection where
  GetThisHost := ("", some "connection refused")
  PoolGetAllRecords := ([], some "connection refused")
  SRGetByNameLabel := fun _ => ([], some "connection refused")

/-- A connection on which only the query for the pool records fails. -/
def halfDownPool : Connection :=
  { samplePool with PoolGetAllRecords := ([], some "session invalid") }

/-! ## The ISO keys of `Config` and their configuration-time checks

The checks themselves are made by the `Prepare` of the ISO builder, which is
not among the sources; only its tests (`builder_test.go`) and the keys it reads
(`config.go`) are. They are modelled from the specification. -/

/-- The ISO keys of the struct `Config` (config.go, lines 51-54). -/
structure Config where
  ISOChecksum : String
  ISOUrls : Option (List String)
  ISOUrl : String
  ISOName : String
deriving DecidableEq, Repr

/-- A hexadecimal digit, in either case. -/
def isHexDigit (c : Char) : Bool :=
  ('0' ≤ c && c ≤ '9') || ('a' ≤ c && c ≤ 'f') || ('A' ≤ c && c ≤ 'F')

/-- Modelled from the spec: the number of hex characters of the digest of each
algorithm (section 4.2: 32 for MD5, 40 for SHA-1, 64 for SHA-256, 128 for
SHA-512); the table itself is in the missing checksum validator. -/
def digestLength (algorithm : String) : Option Nat :=
  if algorithm = "md5" then some 32
  else if algorithm = "sha1" then some 40
  else if algorithm = "sha256" then some 64
  else if algorithm = "sha512" then some 128
  else none

/-- Modelled from the spec: the split of a descriptor `algorithm:digest` at its
first colon (section 4.2, "explicit prefix"), part of the missing checksum
validator. Without a colon the whole descriptor is the digest. -/
def splitAlgorithm : List Char → List Char × Option (List Char)
  | [] => ([], none)
  | c :: cs =>
    if c = ':' then ([], some cs)
    else ((c :: (splitAlgorithm cs).1), (splitAlgorithm cs).2)

/-- Modelled from the spec: the configuration-time check of the checksum
descriptor, made by the missing `Prepare` of the ISO builder (section 4.2 and
section 8). The literal "none" is accepted; a descriptor with an algorithm
prefix, read case-insensitively, is accepted when its digest is made of hex
digits and has the length of that algorithm; a descriptor without prefix is
accepted when it is made of hex digits and has the length of a known
algorithm; everything else, the empty descriptor included, is rejected. -/
def checksumAccepted (descriptor : String) : Bool :=
  if descriptor = "none" then true
  else
    match splitAlgorithm descriptor.data with
    | (digest, none) => digest.all isHexDigit && decide (digest.length ∈ [32, 40, 64, 128])
    | (algorithm, some digest) =>
      match digestLength (String.mk (algorithm.map Char.toLower)) with
      | some n => digest.all isHexDigit && decide (digest.length = n)
      | none => false

/-- Modelled from the spec: how many of the three ISO sources (single URL, URL
list, pre-existing ISO name) are populated (section 3); an empty string and an
empty or nil list are not populated. -/
def populatedISOSources (c : Config) : Nat :=
  (if c.ISOUrl ≠ "" then 1 else 0) + (if c.ISOUrls.getD [] ≠ [] then 1 else 0) +
    (if c.ISOName ≠ "" then 1 else 0)

/-- Modelled from the spec: the ISO-source check of the missing `Prepare` of the
ISO builder (section 3: exactly one of the three sources is populated,
populating more than one is a validation error; section 8). It returns the
validated configuration, or `none` for a validation error. -/
def validateISOSource (c : Config) : Option Config :=
  if populatedISOSources c = 1 then some c else none

/-- The ISO keys of `testConfig` (builder_test.go, lines 18-19). -/
def testISOConfig : Config where
  ISOChecksum := "md5:A221725EE181A44C67E25BD6A2516742"
  ISOUrls := none
  ISOUrl := "http://www.google.com/"
  ISOName := ""

/-! # Properties -/

/-! ## Each default as a field update -/

theorem CommonConfig.defaultHostPortMin_eq {σ : Type} (c : CommonConfig σ) :
    c.defaultHostPortMin =
      { c with HostPortMin := if c.HostPortMin = 0 then 5900 else c.HostPortMin } := by
  unfold CommonConfig.defaultHostPortMin
  split <;> rfl

theorem CommonConfig.defaultHostPortMax_eq {σ : Type} (c : CommonConfig σ) :
    c.defaultHostPortMax =
      { c with HostPortMax := if c.HostPortMax = 0 then 6000 else c.HostPortMax } := by
  unfold CommonConfig.defaultHostPortMax
  split <;> rfl

theorem CommonConfig.defaultRawBootWait_eq {σ : Type} (c : CommonConfig σ) :
    c.defaultRawBootWait =
      { c with RawBootWait := if c.RawBootWait = "" then "5s" else c.RawBootWait } := by
  unfold CommonConfig.defaultRawBootWait
  split <;> rfl

theorem CommonConfig.defaultToolsIsoName_eq {σ : Type} (c : CommonConfig σ) :
    c.defaultToolsIsoName =
      { c with ToolsIsoName := if c.ToolsIsoName = "" then "xs-tools.iso" else c.ToolsIsoName } := by
  unfold CommonConfig.defaultToolsIsoName
  split <;> rfl

theorem CommonConfig.defaultHTTPPortMin_eq {σ : Type} (c : CommonConfig σ) :
    c.defaultHTTPPortMin =
      { c with HTTPPortMin := if c.HTTPPortMin = 0 then 8000 else c.HTTPPortMin } := by
  unfold CommonConfig.defaultHTTPPortMin
  split <;> rfl

theorem CommonConfig.defaultHTTPPortMax_eq {σ : Type} (c : CommonConfig σ) :
    c.defaultHTTPPortMax =
      { c with HTTPPortMax := if c.HTTPPortMax = 0 then 9000 else c.HTTPPortMax } := by
  unfold CommonConfig.defaultHTTPPortMax
  split <;> rfl

theorem CommonConfig.defaultRawSSHWaitTimeout_eq {σ : Type} (c : CommonConfig σ) :
    c.defaultRawSSHWaitTimeout =
      { c with RawSSHWaitTimeout := if c.RawSSHWaitTimeout = "" then "200m" else c.RawSSHWaitTimeout } := by
  unfold CommonConfig.defaultRawSSHWaitTimeout
  split <;> rfl

theorem CommonConfig.defaultFloppyFiles_eq {σ : Type} (c : CommonConfig σ) :
    c.defaultFloppyFiles =
      { c with FloppyFiles := if c.FloppyFiles = none then some [] else c.FloppyFiles } := by
  unfold CommonConfig.defaultFloppyFiles
  split <;> rfl

theorem CommonConfig.defaultSSHPort_eq {σ : Type} (c : CommonConfig σ) :
    c.defaultSSHPort =
      { c with SSHPort := if c.SSHPort = 0 then 22 else c.SSHPort } := by
  unfold CommonConfig.defaultSSHPort
  split <;> rfl

theorem CommonConfig.defaultRawSSHWaitTimeout2_eq {σ : Type} (c : CommonConfig σ) :
    c.defaultRawSSHWaitTimeout2 =
      { c with RawSSHWaitTimeout := if c.RawSSHWaitTimeout = "" then "20m" else c.RawSSHWaitTimeout } := by
  unfold CommonConfig.defaultRawSSHWaitTimeout2
  split <;> rfl

theorem CommonConfig.defaultOutputDir_eq {σ : Type} (c : CommonConfig σ) (pc : PackerConfig) :
    c.defaultOutputDir pc =
      { c with OutputDir := if c.OutputDir = "" then "output-" ++ pc.PackerBuildName else c.OutputDir } := by
  unfold CommonConfig.defaultOutputDir
  split <;> rfl

theorem CommonConfig.defaultVMName_eq {σ : Type} (c : CommonConfig σ) (pc : PackerConfig) :
    c.defaultVMName pc =
      { c with VMName := if c.VMName = "" then "packer-" ++ pc.PackerBuildName ++ "-\x7b\x7btimestamp\x7d\x7d" else c.VMName } := by
  unfold CommonConfig.defaultVMName
  split <;> rfl

theorem CommonConfig.defaultFormat_eq {σ : Type} (c : CommonConfig σ) :
    c.defaultFormat =
      { c with Format := if c.Format = "" then "xva" else c.Format } := by
  unfold CommonConfig.defaultFormat
  split <;> rfl

theorem CommonConfig.defaultKeepVM_eq {σ : Type} (c : CommonConfig σ) :
    c.defaultKeepVM =
      { c with KeepVM := if c.KeepVM = "" then "never" else c.KeepVM } := by
  unfold CommonConfig.defaultKeepVM
  split <;> rfl

theorem CommonConfig.defaultIPGetter_eq {σ : Type} (c : CommonConfig σ) :
    c.defaultIPGetter =
      { c with IPGetter := if c.IPGetter = "" then "auto" else c.IPGetter } := by
  unfold CommonConfig.defaultIPGetter
  split <;> rfl

/-- The second default of `RawSSHWaitTimeout` never applies after the first. -/
theorem second_default_unreachable (r : String) :
    (if (if r = "" then "200m" else r) = "" then "20m" else if r = "" then "200m" else r) =
      if r = "" then "200m" else r := by
  by_cases h : r = ""
  · subst h; decide
  · simp only [h, if_false]

/-- The configuration the defaults leave, field by field. -/
theorem CommonConfig.setDefaults_eq {σ : Type} (c : CommonConfig σ) (pc : PackerConfig) :
    c.setDefaults pc =
      { c with
        HostPortMin := if c.HostPortMin = 0 then 5900 else c.HostPortMin
        HostPortMax := if c.HostPortMax = 0 then 6000 else c.HostPortMax
        RawBootWait := if c.RawBootWait = "" then "5s" else c.RawBootWait
        ToolsIsoName := if c.ToolsIsoName = "" then "xs-tools.iso" else c.ToolsIsoName
        HTTPPortMin := if c.HTTPPortMin = 0 then 8000 else c.HTTPPortMin
        HTTPPortMax := if c.HTTPPortMax = 0 then 9000 else c.HTTPPortMax
        RawSSHWaitTimeout := if c.RawSSHWaitTimeout = "" then "200m" else c.RawSSHWaitTimeout
        FloppyFiles := if c.FloppyFiles = none then some [] else c.FloppyFiles
        SSHPort := if c.SSHPort = 0 then 22 else c.SSHPort
        OutputDir := if c.OutputDir = "" then "output-" ++ pc.PackerBuildName else c.OutputDir
        VMName := if c.VMName = "" then
          "packer-" ++ pc.PackerBuildName ++ "-\x7b\x7btimestamp\x7d\x7d" else c.VMName
        Format := if c.Format = "" then "xva" else c.Format
        KeepVM := if c.KeepVM = "" then "never" else c.KeepVM
        IPGetter := if c.IPGetter = "" then "auto" else c.IPGetter } := by
  simp only [CommonConfig.setDefaults, CommonConfig.defaultHostPortMin_eq,
    CommonConfig.defaultHostPortMax_eq,
    CommonConfig.defaultRawBootWait_eq,
    CommonConfig.defaultToolsIsoName_eq,
    CommonConfig.defaultHTTPPortMin_eq,
    CommonConfig.defaultHTTPPortMax_eq,
    CommonConfig.defaultRawSSHWaitTimeout_eq,
    CommonConfig.defaultFloppyFiles_eq,
    CommonConfig.defaultSSHPort_eq,
    CommonConfig.defaultRawSSHWaitTimeout2_eq,
    CommonConfig.defaultOutputDir_eq,
    CommonConfig.defaultVMName_eq,
    CommonConfig.defaultFormat_eq,
    CommonConfig.defaultKeepVM_eq,
    CommonConfig.defaultIPGetter_eq,
    second_default_unreachable]

/-- The configuration the validation leaves: only the two parsed durations
are written. -/
theorem CommonConfig.validation_snd {σ : Type} (d : CommonConfig σ) (env : Env) :
    (d.validation env).2 =
      { d with
        BootWait := (env.ParseDuration d.RawBootWait).1
        SSHWaitTimeout := (env.ParseDuration d.RawSSHWaitTimeout).1 } := rfl

theorem reported_cons (b : Bool) (m : Error) (rs : List Rule) :
    reported (⟨b, m⟩ :: rs) = (if b then [m] else []) ++ reported rs := by
  cases b <;> simp [reported]

theorem reported_nil : reported [] = [] := rfl

theorem append_if_pos (p : Prop) [Decidable p] (l : List Error) (m : Error) :
    (if p then l ++ [m] else l) = l ++ (if decide p then [m] else []) := by
  by_cases h : p <;> simp [h]

theorem append_if_neg (p : Prop) [Decidable p] (l : List Error) (m : Error) :
    (if p then l else l ++ [m]) = l ++ (if decide (¬ p) then [m] else []) := by
  by_cases h : p <;> simp [h]

/-- The errors of the validation are the errors of the violated rules. -/
theorem CommonConfig.validation_fst {σ : Type} (d : CommonConfig σ) (env : Env) :
    (d.validation env).1 = reported (rules env d) := by
  simp only [CommonConfig.validation, rules, reported_cons, reported_nil]
  rcases h1 : (env.ParseDuration d.RawBootWait).2 with _ | e1 <;>
  rcases h2 : (env.ParseDuration d.RawSSHWaitTimeout).2 with _ | e2 <;>
  rcases h3 : env.Stat d.SSHKeyPath with _ | e3 <;>
  rcases h4 : env.FileSigner d.SSHKeyPath with _ | e4 <;>
  by_cases h5 : d.SSHKeyPath = "" <;>
  simp only [append_if_pos, append_if_neg, ne_eq, h5, not_true_eq_false, not_false_eq_true,
    if_true, if_false] <;>
  simp only [List.append_assoc, List.nil_append,
    List.append_nil, Option.isSome_some, Option.isSome_none, Option.getD_some, Option.getD_none,
    Bool.or_true, Bool.or_false, Bool.and_true, Bool.and_false, Bool.false_and, if_true,
    if_false, decide_True, decide_False, Bool.false_eq_true, List.cons_append]

/-- The errors of `Prepare` are the errors of the rules that the defaulted
configuration violates. -/
theorem CommonConfig.Prepare_fst {σ : Type} (c : CommonConfig σ) (env : Env)
    (pc : PackerConfig) :
    (c.Prepare env pc).1 = reported (rules env (c.setDefaults pc)) :=
  CommonConfig.validation_fst (c.setDefaults pc) env

/-- The rules read no field that the validation writes. -/
theorem rules_validation {σ : Type} (d : CommonConfig σ) (env : Env) :
    rules env (d.validation env).2 = rules env d := rfl

/-- The configuration `Prepare` leaves, in terms of the defaulted one. -/
theorem CommonConfig.Prepare_snd {σ : Type} (c : CommonConfig σ) (env : Env)
    (pc : PackerConfig) :
    (c.Prepare env pc).2 =
      { c.setDefaults pc with
        BootWait := (env.ParseDuration (c.setDefaults pc).RawBootWait).1
        SSHWaitTimeout := (env.ParseDuration (c.setDefaults pc).RawSSHWaitTimeout).1 } :=
  CommonConfig.validation_snd (c.setDefaults pc) env

theorem reported_length (rs : List Rule) :
    (reported rs).length = rs.countP (·.violated) := by
  simp [reported, List.countP_eq_length_filter]

theorem reported_eq_nil (rs : List Rule) :
    reported rs = [] ↔ ∀ r ∈ rs, r.violated = false := by
  simp [reported, List.filter_eq_nil_iff]

/-- The configuration `Prepare` leaves, field by field. -/
theorem CommonConfig.Prepare_snd_eq {σ : Type} (c : CommonConfig σ) (env : Env)
    (pc : PackerConfig) :
    (c.Prepare env pc).2 =
      { c with
        HostPortMin := if c.HostPortMin = 0 then 5900 else c.HostPortMin
        HostPortMax := if c.HostPortMax = 0 then 6000 else c.HostPortMax
        RawBootWait := if c.RawBootWait = "" then "5s" else c.RawBootWait
        BootWait := (env.ParseDuration (if c.RawBootWait = "" then "5s" else c.RawBootWait)).1
        ToolsIsoName := if c.ToolsIsoName = "" then "xs-tools.iso" else c.ToolsIsoName
        HTTPPortMin := if c.HTTPPortMin = 0 then 8000 else c.HTTPPortMin
        HTTPPortMax := if c.HTTPPortMax = 0 then 9000 else c.HTTPPortMax
        RawSSHWaitTimeout := if c.RawSSHWaitTimeout = "" then "200m" else c.RawSSHWaitTimeout
        SSHWaitTimeout :=
          (env.ParseDuration
            (if c.RawSSHWaitTimeout = "" then "200m" else c.RawSSHWaitTimeout)).1
        FloppyFiles := if c.FloppyFiles = none then some [] else c.FloppyFiles
        SSHPort := if c.SSHPort = 0 then 22 else c.SSHPort
        OutputDir := if c.OutputDir = "" then "output-" ++ pc.PackerBuildName else c.OutputDir
        VMName := if c.VMName = "" then
          "packer-" ++ pc.PackerBuildName ++ "-\x7b\x7btimestamp\x7d\x7d" else c.VMName
        Format := if c.Format = "" then "xva" else c.Format
        KeepVM := if c.KeepVM = "" then "never" else c.KeepVM
        IPGetter := if c.IPGetter = "" then "auto" else c.IPGetter } := by
  rw [CommonConfig.Prepare_snd, CommonConfig.setDefaults_eq]

/-- A string that starts with `p` differs from a string that does not. -/
theorem prefixed_ne (p e m : String) (h : p.data.isPrefixOf m.data = false) : p ++ e ≠ m := by
  intro heq
  have hp : p.data <+: m.data := by
    rw [← heq, String.data_append]
    exact List.prefix_append _ _
  rw [← List.isPrefixOf_iff_prefix] at hp
  simp [h] at hp

theorem count_reported_cons (a : Error) (b : Bool) (m : Error) (rs : List Rule) :
    (reported (⟨b, m⟩ :: rs)).count a =
      (if b = true ∧ m = a then 1 else 0) + (reported rs).count a := by
  rw [reported_cons]
  cases b <;> by_cases h : m = a <;> simp [h, List.count_cons, Nat.add_comm]

/-- The host port error is reported once when the defaulted host port range is
inverted, and not at all otherwise. -/
theorem count_hostPortError {σ : Type} (env : Env) (d : CommonConfig σ) :
    (reported (rules env d)).count hostPortError =
      if d.HostPortMin ≤ d.HostPortMax then 0 else 1 := by
  have h1 := prefixed_ne "Failed to parse boot_wait: "
    ((env.ParseDuration d.RawBootWait).2.getD "") hostPortError (by decide)
  have h2 := prefixed_ne "ssh_key_path is invalid: "
    ((env.Stat d.SSHKeyPath).getD ((env.FileSigner d.SSHKeyPath).getD "")) hostPortError
    (by decide)
  have h3 := prefixed_ne "Failed to parse ssh_wait_timeout: "
    ((env.ParseDuration d.RawSSHWaitTimeout).2.getD "") hostPortError (by decide)
  simp only [rules, count_reported_cons, reported_nil, List.count_nil, h1, h2, h3, and_false,
    if_false, Nat.zero_add, Nat.add_zero]
  by_cases h : d.HostPortMin ≤ d.HostPortMax <;> simp [h, hostPortError]

/-- The HTTP port error is reported once when the defaulted HTTP port range is
inverted, and not at all otherwise. -/
theorem count_httpPortError {σ : Type} (env : Env) (d : CommonConfig σ) :
    (reported (rules env d)).count httpPortError =
      if d.HTTPPortMin ≤ d.HTTPPortMax then 0 else 1 := by
  have h1 := prefixed_ne "Failed to parse boot_wait: "
    ((env.ParseDuration d.RawBootWait).2.getD "") httpPortError (by decide)
  have h2 := prefixed_ne "ssh_key_path is invalid: "
    ((env.Stat d.SSHKeyPath).getD ((env.FileSigner d.SSHKeyPath).getD "")) httpPortError
    (by decide)
  have h3 := prefixed_ne "Failed to parse ssh_wait_timeout: "
    ((env.ParseDuration d.RawSSHWaitTimeout).2.getD "") httpPortError (by decide)
  simp only [rules, count_reported_cons, reported_nil, List.count_nil, h1, h2, h3, and_false,
    if_false, Nat.zero_add, Nat.add_zero]
  by_cases h : d.HTTPPortMin ≤ d.HTTPPortMax <;> simp [h, httpPortError]

/-! ## ShouldKeepVM -/

/-- C1: `ShouldKeepVM` as a function of `KeepVM` and the state. For every
state, "always" returns true and "never" returns false; "on_success" returns
true exactly when the state bag holds neither the cancelled key nor the halted
key, and false when either or both are present. -/
theorem ShouldKeepVM_table {σ V : Type} (c : CommonConfig σ) (state : StateBag V) :
    (c.KeepVM = "always" → c.ShouldKeepVM state = .returns true) ∧
    (c.KeepVM = "never" → c.ShouldKeepVM state = .returns false) ∧
    (c.KeepVM = "on_success" → c.ShouldKeepVM state =
      .returns ((state.GetOk StateCancelled).isNone && (state.GetOk StateHalted).isNone)) := by
  refine ⟨fun h => ?_, fun h => ?_, fun h => ?_⟩
  · simp [CommonConfig.ShouldKeepVM, h]
  · simp [CommonConfig.ShouldKeepVM, h]
  · simp only [CommonConfig.ShouldKeepVM, h]
    cases state.GetOk StateCancelled <;> cases state.GetOk StateHalted <;> simp

/-- The table of C1 on `testConfig` with each policy and each outcome. -/
theorem ShouldKeepVM_table_witness :
    ({ testConfig with KeepVM := "always" }).ShouldKeepVM (bagOf ["halted"]) = .returns true ∧
    ({ testConfig with KeepVM := "never" }).ShouldKeepVM (bagOf []) = .returns false ∧
    ({ testConfig with KeepVM := "on_success" }).ShouldKeepVM (bagOf []) = .returns true ∧
    ({ testConfig with KeepVM := "on_success" }).ShouldKeepVM (bagOf ["cancelled"]) =
      .returns false ∧
    ({ testConfig with KeepVM := "on_success" }).ShouldKeepVM (bagOf ["halted"]) =
      .returns false ∧
    ({ testConfig with KeepVM := "on_success" }).ShouldKeepVM (bagOf ["cancelled", "halted"]) =
      .returns false :=
  ⟨(ShouldKeepVM_table _ _).1 rfl, (ShouldKeepVM_table _ _).2.1 rfl,
    (ShouldKeepVM_table _ _).2.2 rfl, (ShouldKeepVM_table _ _).2.2 rfl,
    (ShouldKeepVM_table _ _).2.2 rfl, (ShouldKeepVM_table _ _).2.2 rfl⟩

/-! ## GetSR and GetISOSR -/

/-- C2: with a non-empty `SrName` whose by-name-label query succeeds with the
list `L`, `GetSR` returns a "not found" error when `L` is empty, a "more than
one ... must be unique" error when `L` has more than one element, and the
single element of `L` with no error when `L` has exactly one; the empty
reference accompanies each error, and that query is the only one sent. -/
theorem GetSR_by_name {σ : Type} (config : CommonConfig σ) (c : Connection) (L : List SRRef)
    (hname : config.SrName ≠ "") (hquery : c.SRGetByNameLabel config.SrName = (L, none)) :
    (L = [] → config.GetSR c =
      ⟨"", some ("Couldn't find a SR with the specified name-label '" ++ config.SrName ++ "'"),
        [.SRGetByNameLabel config.SrName]⟩) ∧
    (1 < L.length → config.GetSR c =
      ⟨"", some ("Found more than one SR with the name '" ++ config.SrName ++
        "'. The name must be unique"), [.SRGetByNameLabel config.SrName]⟩) ∧
    (∀ sr, L = [sr] → config.GetSR c = ⟨sr, none, [.SRGetByNameLabel config.SrName]⟩) := by
  have h : config.GetSR c = selectSR config.SrName [.SRGetByNameLabel config.SrName] L := by
    simp only [CommonConfig.GetSR, hname, if_false, hquery]
  rw [h]
  refine ⟨fun hL => ?_, fun hL => ?_, fun sr hL => ?_⟩
  · subst hL; rfl
  · match L, hL with
    | _ :: _ :: _, _ => rfl
  · subst hL; rfl

/-- The three cases of C2 on the sample pool: one, none and two repositories
with the name. -/
theorem GetSR_by_name_witness :
    ({ testConfig with SrName := "vm-store" }).GetSR samplePool =
      ⟨"OpaqueRef:sr-vm", none, [.SRGetByNameLabel "vm-store"]⟩ ∧
    ({ testConfig with SrName := "absent" }).GetSR samplePool =
      ⟨"", some "Couldn't find a SR with the specified name-label 'absent'",
        [.SRGetByNameLabel "absent"]⟩ ∧
    ({ testConfig with SrName := "twin" }).GetSR samplePool =
      ⟨"", some "Found more than one SR with the name 'twin'. The name must be unique",
        [.SRGetByNameLabel "twin"]⟩ :=
  ⟨(GetSR_by_name { testConfig with SrName := "vm-store" } samplePool ["OpaqueRef:sr-vm"]
      (by decide) rfl).2.2 _ rfl,
    (GetSR_by_name { testConfig with SrName := "absent" } samplePool []
      (by decide) rfl).1 rfl,
    (GetSR_by_name { testConfig with SrName := "twin" } samplePool
      ["OpaqueRef:sr-a", "OpaqueRef:sr-b"] (by decide) rfl).2.1 (by decide)⟩

/-- C3: on the configuration with `sr_iso_name` "iso-store" and no `sr_name`,
against a pool that holds exactly one repository labelled "iso-store",
`GetISOSR` queries the label held by `SrName` (the empty string) and returns a
"not found" error instead of that repository; with `sr_name` "vm-store" it
returns the VM repository. Its result follows `sr_name`, not `sr_iso_name`. -/
theorem GetISOSR_looks_up_SrName :
    samplePool.SRGetByNameLabel "iso-store" = (["OpaqueRef:sr-iso"], none) ∧
    ({ testConfig with SrName := "", SrISOName := "iso-store" }).GetISOSR samplePool =
      ⟨"", some "Couldn't find a SR with the specified name-label ''",
        [.SRGetByNameLabel ""]⟩ ∧
    ({ testConfig with SrName := "vm-store", SrISOName := "iso-store" }).GetISOSR samplePool =
      ⟨"OpaqueRef:sr-vm", none, [.SRGetByNameLabel "vm-store"]⟩ := by
  decide

/-- C4: with an empty `SrISOName`, `GetISOSR` returns the error "sr_iso_name
must be specified ..." with the empty reference and sends no query, whatever
the connection and whatever `SrName` is; `GetSR` with an empty `SrName` goes to
the pool instead, starting with the query for the calling host. -/
theorem GetISOSR_empty_name {σ : Type} (config : CommonConfig σ) (c : Connection)
    (hname : config.SrISOName = "") :
    config.GetISOSR c =
      ⟨"", some "sr_iso_name must be specified in the packer configuration", []⟩ ∧
    (config.SrName = "" → (config.GetSR c).queries.head? = some .GetThisHost) := by
  constructor
  · simp only [CommonConfig.GetISOSR, hname, if_true]
  · intro h
    simp only [CommonConfig.GetSR, h, if_true]
    split
    · rfl
    · split
      · rfl
      · split <;> rfl

/-- C4 on `testConfig`, which sets neither `sr_iso_name` nor `sr_name`. -/
theorem GetISOSR_empty_name_witness :
    testConfig.SrISOName = "" ∧
    testConfig.GetISOSR samplePool =
      ⟨"", some "sr_iso_name must be specified in the packer configuration", []⟩ :=
  ⟨rfl, (GetISOSR_empty_name testConfig samplePool rfl).1⟩

/-! ## Prepare: the error list -/

/-- C5: `Prepare` is not fail-fast. Its error list is the list of the errors of
the violated rules among the twelve, one error for each, in the order of the
rules, and nothing else; its length is the number of violated rules and it is
empty exactly when no rule is violated. The rules are read on the
configuration `Prepare` leaves, that is after the defaults. -/
theorem Prepare_reports_every_violation {σ : Type} (c : CommonConfig σ) (env : Env)
    (pc : PackerConfig) :
    (c.Prepare env pc).1 = reported (rules env (c.Prepare env pc).2) ∧
    (rules env (c.Prepare env pc).2).length = 12 ∧
    (c.Prepare env pc).1.length = (rules env (c.Prepare env pc).2).countP (·.violated) ∧
    ((c.Prepare env pc).1 = [] ↔ ∀ r ∈ rules env (c.Prepare env pc).2, r.violated = false) := by
  unfold CommonConfig.Prepare
  generalize c.setDefaults pc = d
  have h : (d.validation env).1 = reported (rules env (d.validation env).2) :=
    CommonConfig.validation_fst d env
  refine ⟨h, rfl, ?_, ?_⟩
  · rw [h, reported_length]
  · rw [h, reported_eq_nil]

/-! ## Prepare: the defaults -/

/-- C6: each unset field (zero or empty string) has its default after
`Prepare`, whatever the other fields are: `HostPortMin` 5900, `HostPortMax`
6000, `RawBootWait` "5s" with `BootWait` 5 seconds, `ToolsIsoName`
"xs-tools.iso", `HTTPPortMin` 8000, `HTTPPortMax` 9000, `SSHPort` 22, `Format`
"xva", `KeepVM` "never", `IPGetter` "auto". The duration parser is taken to
read "5s" as five seconds. -/
theorem Prepare_defaults {σ : Type} (c : CommonConfig σ) (env : Env) (pc : PackerConfig)
    (hparse : (env.ParseDuration "5s").1 = 5 * Second) :
    (c.HostPortMin = 0 → (c.Prepare env pc).2.HostPortMin = 5900) ∧
    (c.HostPortMax = 0 → (c.Prepare env pc).2.HostPortMax = 6000) ∧
    (c.RawBootWait = "" →
      (c.Prepare env pc).2.RawBootWait = "5s" ∧ (c.Prepare env pc).2.BootWait = 5 * Second) ∧
    (c.ToolsIsoName = "" → (c.Prepare env pc).2.ToolsIsoName = "xs-tools.iso") ∧
    (c.HTTPPortMin = 0 → (c.Prepare env pc).2.HTTPPortMin = 8000) ∧
    (c.HTTPPortMax = 0 → (c.Prepare env pc).2.HTTPPortMax = 9000) ∧
    (c.SSHPort = 0 → (c.Prepare env pc).2.SSHPort = 22) ∧
    (c.Format = "" → (c.Prepare env pc).2.Format = "xva") ∧
    (c.KeepVM = "" → (c.Prepare env pc).2.KeepVM = "never") ∧
    (c.IPGetter = "" → (c.Prepare env pc).2.IPGetter = "auto") := by
  rw [CommonConfig.Prepare_snd_eq]
  refine ⟨?_, ?_, ?_, ?_, ?_, ?_, ?_, ?_, ?_, ?_⟩ <;> intro h <;> simp only [h, if_true]
  exact ⟨trivial, hparse⟩

/-- C6 on the configuration with no key set: every default at once. -/
theorem Prepare_defaults_witness :
    (sampleEnv.ParseDuration "5s").1 = 5 * Second ∧
    ((CommonConfig.zero ()).Prepare sampleEnv testBuild).2.HostPortMin = 5900 ∧
    ((CommonConfig.zero ()).Prepare sampleEnv testBuild).2.HostPortMax = 6000 ∧
    ((CommonConfig.zero ()).Prepare sampleEnv testBuild).2.RawBootWait = "5s" ∧
    ((CommonConfig.zero ()).Prepare sampleEnv testBuild).2.BootWait = 5 * Second ∧
    ((CommonConfig.zero ()).Prepare sampleEnv testBuild).2.ToolsIsoName = "xs-tools.iso" ∧
    ((CommonConfig.zero ()).Prepare sampleEnv testBuild).2.HTTPPortMin = 8000 ∧
    ((CommonConfig.zero ()).Prepare sampleEnv testBuild).2.HTTPPortMax = 9000 ∧
    ((CommonConfig.zero ()).Prepare sampleEnv testBuild).2.SSHPort = 22 ∧
    ((CommonConfig.zero ()).Prepare sampleEnv testBuild).2.Format = "xva" ∧
    ((CommonConfig.zero ()).Prepare sampleEnv testBuild).2.KeepVM = "never" ∧
    ((CommonConfig.zero ()).Prepare sampleEnv testBuild).2.IPGetter = "auto" :=
  have h := Prepare_defaults (CommonConfig.zero ()) sampleEnv testBuild rfl
  ⟨rfl, h.1 rfl, h.2.1 rfl, (h.2.2.1 rfl).1, (h.2.2.1 rfl).2, h.2.2.2.1 rfl, h.2.2.2.2.1 rfl,
    h.2.2.2.2.2.1 rfl, h.2.2.2.2.2.2.1 rfl, h.2.2.2.2.2.2.2.1 rfl, h.2.2.2.2.2.2.2.2.1 rfl,
    h.2.2.2.2.2.2.2.2.2 rfl⟩

/-- C7: for every build name `n`, an empty `OutputDir` becomes "output-"
followed by `n`, and an empty `VMName` becomes "packer-" followed by `n`
followed by the placeholder "-{{timestamp}}", left as it is written; the
defaulted VM name is never empty. -/
theorem Prepare_default_names {σ : Type} (c : CommonConfig σ) (env : Env) (n : String) :
    (c.OutputDir = "" → (c.Prepare env ⟨n⟩).2.OutputDir = "output-" ++ n) ∧
    (c.VMName = "" →
      (c.Prepare env ⟨n⟩).2.VMName = "packer-" ++ n ++ "-\x7b\x7btimestamp\x7d\x7d" ∧
      (c.Prepare env ⟨n⟩).2.VMName ≠ "") := by
  rw [CommonConfig.Prepare_snd_eq]
  refine ⟨fun h => ?_, fun h => ?_⟩
  · simp only [h, if_true]
  · simp only [h, if_true, true_and]
    intro hempty
    have hlen := congrArg String.length hempty
    simp only [String.length_append] at hlen
    have h7 : "-\x7b\x7btimestamp\x7d\x7d".length = 14 := by decide
    have h0 : "".length = 0 := by decide
    omega

/-- C7 without any key set, for the build name "foo" and for the empty build
name. -/
theorem Prepare_default_names_witness :
    ((CommonConfig.zero ()).Prepare sampleEnv ⟨"foo"⟩).2.OutputDir = "output-foo" ∧
    ((CommonConfig.zero ()).Prepare sampleEnv ⟨"foo"⟩).2.VMName =
      "packer-foo-\x7b\x7btimestamp\x7d\x7d" ∧
    ((CommonConfig.zero ()).Prepare sampleEnv ⟨""⟩).2.VMName =
      "packer--\x7b\x7btimestamp\x7d\x7d" ∧
    ((CommonConfig.zero ()).Prepare sampleEnv ⟨""⟩).2.VMName ≠ "" :=
  ⟨(Prepare_default_names (CommonConfig.zero ()) sampleEnv "foo").1 rfl,
    ((Prepare_default_names (CommonConfig.zero ()) sampleEnv "foo").2 rfl).1,
    ((Prepare_default_names (CommonConfig.zero ()) sampleEnv "").2 rfl).1,
    ((Prepare_default_names (CommonConfig.zero ()) sampleEnv "").2 rfl).2⟩

/-! ## Prepare: what it leaves alone -/

/-- C8, as stated, fails on `FloppyFiles`: `testConfig` has no floppy files
(the nil slice) and `Prepare` replaces the nil slice by an empty one. -/
theorem Prepare_replaces_nil_FloppyFiles :
    testConfig.FloppyFiles = none ∧
    (testConfig.Prepare sampleEnv testBuild).2.FloppyFiles = some [] ∧
    (testConfig.Prepare sampleEnv testBuild).2.FloppyFiles ≠ testConfig.FloppyFiles := by
  decide

/-- C8, amended: defaults are applied only to unset fields. Every field with a
default that is already set (non-zero port, non-empty string, non-nil
`FloppyFiles`) has the same value after `Prepare` as before, whether or not
`Prepare` reports errors; a nil `FloppyFiles` becomes the empty list; the
fields with no default (credentials, host, SR names, description, the network,
export-network and boot-command lists, commands, HTTP directory, SSH key path,
password and user, the embedded SSH configuration) are never changed. Only
`BootWait` and `SSHWaitTimeout` are left out. -/
theorem Prepare_frame {σ : Type} (c : CommonConfig σ) (env : Env) (pc : PackerConfig) :
    ((c.HostPortMin ≠ 0 → (c.Prepare env pc).2.HostPortMin = c.HostPortMin) ∧
      (c.HostPortMax ≠ 0 → (c.Prepare env pc).2.HostPortMax = c.HostPortMax) ∧
      (c.RawBootWait ≠ "" → (c.Prepare env pc).2.RawBootWait = c.RawBootWait) ∧
      (c.ToolsIsoName ≠ "" → (c.Prepare env pc).2.ToolsIsoName = c.ToolsIsoName) ∧
      (c.HTTPPortMin ≠ 0 → (c.Prepare env pc).2.HTTPPortMin = c.HTTPPortMin) ∧
      (c.HTTPPortMax ≠ 0 → (c.Prepare env pc).2.HTTPPortMax = c.HTTPPortMax) ∧
      (c.RawSSHWaitTimeout ≠ "" →
        (c.Prepare env pc).2.RawSSHWaitTimeout = c.RawSSHWaitTimeout) ∧
      (c.SSHPort ≠ 0 → (c.Prepare env pc).2.SSHPort = c.SSHPort) ∧
      (c.OutputDir ≠ "" → (c.Prepare env pc).2.OutputDir = c.OutputDir) ∧
      (c.VMName ≠ "" → (c.Prepare env pc).2.VMName = c.VMName) ∧
      (c.Format ≠ "" → (c.Prepare env pc).2.Format = c.Format) ∧
      (c.KeepVM ≠ "" → (c.Prepare env pc).2.KeepVM = c.KeepVM) ∧
      (c.IPGetter ≠ "" → (c.Prepare env pc).2.IPGetter = c.IPGetter)) ∧
    ((c.FloppyFiles ≠ none → (c.Prepare env pc).2.FloppyFiles = c.FloppyFiles) ∧
      (c.FloppyFiles = none → (c.Prepare env pc).2.FloppyFiles = some [])) ∧
    ((c.Prepare env pc).2.Username = c.Username ∧
      (c.Prepare env pc).2.Password = c.Password ∧
      (c.Prepare env pc).2.HostIp = c.HostIp ∧
      (c.Prepare env pc).2.VMDescription = c.VMDescription ∧
      (c.Prepare env pc).2.SrName = c.SrName ∧
      (c.Prepare env pc).2.SrISOName = c.SrISOName ∧
      (c.Prepare env pc).2.NetworkNames = c.NetworkNames ∧
      (c.Prepare env pc).2.ExportNetworkNames = c.ExportNetworkNames ∧
      (c.Prepare env pc).2.BootCommand = c.BootCommand ∧
      (c.Prepare env pc).2.ShutdownCommand = c.ShutdownCommand ∧
      (c.Prepare env pc).2.HTTPDir = c.HTTPDir ∧
      (c.Prepare env pc).2.SSHKeyPath = c.SSHKeyPath ∧
      (c.Prepare env pc).2.SSHPassword = c.SSHPassword ∧
      (c.Prepare env pc).2.SSHUser = c.SSHUser ∧
      (c.Prepare env pc).2.SSHConfig = c.SSHConfig) := by
  rw [CommonConfig.Prepare_snd_eq]
  refine ⟨⟨?_, ?_, ?_, ?_, ?_, ?_, ?_, ?_, ?_, ?_, ?_, ?_, ?_⟩, ⟨?_, ?_⟩, ?_⟩
  all_goals first
    | (intro h; simp only [h, if_false, if_true])
    | (refine ⟨?_, ?_, ?_, ?_, ?_, ?_, ?_, ?_, ?_, ?_, ?_, ?_, ?_, ?_, ?_⟩ <;> rfl)

/-- C8, amended, on a configuration with every defaulted field set, which
`Prepare` rejects: the set values stay. -/
theorem Prepare_frame_witness :
    ({ testConfig with
        HostPortMin := 7000, HostPortMax := 6500, Format := "foo",
        FloppyFiles := some ["a.img"] }.Prepare sampleEnv testBuild).1 ≠ [] ∧
    ({ testConfig with
        HostPortMin := 7000, HostPortMax := 6500, Format := "foo",
        FloppyFiles := some ["a.img"] }.Prepare sampleEnv testBuild).2.HostPortMin = 7000 ∧
    ({ testConfig with
        HostPortMin := 7000, HostPortMax := 6500, Format := "foo",
        FloppyFiles := some ["a.img"] }.Prepare sampleEnv testBuild).2.HostPortMax = 6500 ∧
    ({ testConfig with
        HostPortMin := 7000, HostPortMax := 6500, Format := "foo",
        FloppyFiles := some ["a.img"] }.Prepare sampleEnv testBuild).2.Format = "foo" ∧
    ({ testConfig with
        HostPortMin := 7000, HostPortMax := 6500, Format := "foo",
        FloppyFiles := some ["a.img"] }.Prepare sampleEnv testBuild).2.FloppyFiles =
      some ["a.img"] :=
  have h := Prepare_frame { testConfig with
    HostPortMin := 7000, HostPortMax := 6500, Format := "foo",
    FloppyFiles := some ["a.img"] } sampleEnv testBuild
  ⟨by decide, h.1.1 (by decide), h.1.2.1 (by decide),
    h.1.2.2.2.2.2.2.2.2.2.2.1 (by decide), h.2.1.1 (by decide)⟩

/-! ## Prepare: the port ranges -/

/-- C9: for a supplied (non-zero) host port pair, `Prepare` reports no host
port error when min ≤ max and exactly one when min > max; the same holds for
the HTTP port pair; and the two checks are independent: changing the HTTP pair
never changes the number of host port errors, and changing the host pair never
changes the number of HTTP port errors. -/
theorem Prepare_port_ranges {σ : Type} (c : CommonConfig σ) (env : Env) (pc : PackerConfig) :
    (c.HostPortMin ≠ 0 → c.HostPortMax ≠ 0 →
      (c.Prepare env pc).1.count hostPortError =
        if c.HostPortMin ≤ c.HostPortMax then 0 else 1) ∧
    (c.HTTPPortMin ≠ 0 → c.HTTPPortMax ≠ 0 →
      (c.Prepare env pc).1.count httpPortError =
        if c.HTTPPortMin ≤ c.HTTPPortMax then 0 else 1) ∧
    (∀ a b : Nat,
      ({ c with HTTPPortMin := a, HTTPPortMax := b }.Prepare env pc).1.count hostPortError =
        (c.Prepare env pc).1.count hostPortError) ∧
    (∀ a b : Nat,
      ({ c with HostPortMin := a, HostPortMax := b }.Prepare env pc).1.count httpPortError =
        (c.Prepare env pc).1.count httpPortError) := by
  simp only [CommonConfig.Prepare_fst, count_hostPortError, count_httpPortError,
    CommonConfig.setDefaults_eq]
  refine ⟨fun h1 h2 => ?_, fun h1 h2 => ?_, fun a b => trivial, fun a b => trivial⟩ <;>
    simp only [h1, h2, if_false]

/-- C9 on the pairs of `TestBuilderPrepare_HTTPPort`: HTTP ports 1000 and 500
give one HTTP port error, 500 and 1000 give none; neither gives a host port
error. -/
theorem Prepare_port_ranges_witness :
    ({ testConfig with HTTPPortMin := 1000, HTTPPortMax := 500 }.Prepare sampleEnv
      testBuild).1.count httpPortError = 1 ∧
    ({ testConfig with HTTPPortMin := 500, HTTPPortMax := 1000 }.Prepare sampleEnv
      testBuild).1.count httpPortError = 0 ∧
    ({ testConfig with HostPortMin := 6000, HostPortMax := 5900 }.Prepare sampleEnv
      testBuild).1.count hostPortError = 1 :=
  ⟨(Prepare_port_ranges { testConfig with HTTPPortMin := 1000, HTTPPortMax := 500 } sampleEnv
      testBuild).2.1 (by decide) (by decide),
    (Prepare_port_ranges { testConfig with HTTPPortMin := 500, HTTPPortMax := 1000 } sampleEnv
      testBuild).2.1 (by decide) (by decide),
    (Prepare_port_ranges { testConfig with HostPortMin := 6000, HostPortMax := 5900 } sampleEnv
      testBuild).1 (by decide) (by decide)⟩

/-- C10: when `Prepare` returns no errors, the resulting configuration has
`HostPortMin ≤ HostPortMax` and `HTTPPortMin ≤ HTTPPortMax`. -/
theorem Prepare_ok_port_order {σ : Type} (c : CommonConfig σ) (env : Env) (pc : PackerConfig)
    (hok : (c.Prepare env pc).1 = []) :
    (c.Prepare env pc).2.HostPortMin ≤ (c.Prepare env pc).2.HostPortMax ∧
    (c.Prepare env pc).2.HTTPPortMin ≤ (c.Prepare env pc).2.HTTPPortMax := by
  have hhost : (c.Prepare env pc).1.count hostPortError = 0 := by rw [hok]; rfl
  have hhttp : (c.Prepare env pc).1.count httpPortError = 0 := by rw [hok]; rfl
  rw [CommonConfig.Prepare_fst, count_hostPortError] at hhost
  rw [CommonConfig.Prepare_fst, count_httpPortError] at hhttp
  rw [CommonConfig.Prepare_snd]
  constructor
  · by_contra hlt
    simp [hlt] at hhost
  · by_contra hlt
    simp [hlt] at hhttp

/-- C10 on `testConfig`, which `Prepare` accepts: the ranges are the default
ones. -/
theorem Prepare_ok_port_order_witness :
    (testConfig.Prepare sampleEnv testBuild).1 = [] ∧
    (testConfig.Prepare sampleEnv testBuild).2.HostPortMin ≤
      (testConfig.Prepare sampleEnv testBuild).2.HostPortMax ∧
    (testConfig.Prepare sampleEnv testBuild).2.HTTPPortMin ≤
      (testConfig.Prepare sampleEnv testBuild).2.HTTPPortMax :=
  ⟨by decide, Prepare_ok_port_order testConfig sampleEnv testBuild (by decide)⟩

/-! ## How often each fixed error is reported -/

/-- The error for an empty `Username` is reported once when the rule is violated, and
not at all otherwise. -/
theorem count_usernameError {σ : Type} (env : Env) (d : CommonConfig σ) :
    (reported (rules env d)).count usernameError =
      if d.Username = "" then 1 else 0 := by
  have h1 := prefixed_ne "Failed to parse boot_wait: "
    ((env.ParseDuration d.RawBootWait).2.getD "") usernameError (by decide)
  have h2 := prefixed_ne "ssh_key_path is invalid: "
    ((env.Stat d.SSHKeyPath).getD ((env.FileSigner d.SSHKeyPath).getD "")) usernameError
    (by decide)
  have h3 := prefixed_ne "Failed to parse ssh_wait_timeout: "
    ((env.ParseDuration d.RawSSHWaitTimeout).2.getD "") usernameError (by decide)
  simp only [rules, count_reported_cons, reported_nil, List.count_nil, h1, h2, h3, and_false,
    if_false, Nat.zero_add, Nat.add_zero]
  by_cases h : d.Username = "" <;> simp [h, usernameError]

/-- The error for an empty `Password` is reported once when the rule is violated, and
not at all otherwise. -/
theorem count_passwordError {σ : Type} (env : Env) (d : CommonConfig σ) :
    (reported (rules env d)).count passwordError =
      if d.Password = "" then 1 else 0 := by
  have h1 := prefixed_ne "Failed to parse boot_wait: "
    ((env.ParseDuration d.RawBootWait).2.getD "") passwordError (by decide)
  have h2 := prefixed_ne "ssh_key_path is invalid: "
    ((env.Stat d.SSHKeyPath).getD ((env.FileSigner d.SSHKeyPath).getD "")) passwordError
    (by decide)
  have h3 := prefixed_ne "Failed to parse ssh_wait_timeout: "
    ((env.ParseDuration d.RawSSHWaitTimeout).2.getD "") passwordError (by decide)
  simp only [rules, count_reported_cons, reported_nil, List.count_nil, h1, h2, h3, and_false,
    if_false, Nat.zero_add, Nat.add_zero]
  by_cases h : d.Password = "" <;> simp [h, passwordError]

/-- The error for an empty `HostIp` is reported once when the rule is violated, and
not at all otherwise. -/
theorem count_hostError {σ : Type} (env : Env) (d : CommonConfig σ) :
    (reported (rules env d)).count hostError =
      if d.HostIp = "" then 1 else 0 := by
  have h1 := prefixed_ne "Failed to parse boot_wait: "
    ((env.ParseDuration d.RawBootWait).2.getD "") hostError (by decide)
  have h2 := prefixed_ne "ssh_key_path is invalid: "
    ((env.Stat d.SSHKeyPath).getD ((env.FileSigner d.SSHKeyPath).getD "")) hostError
    (by decide)
  have h3 := prefixed_ne "Failed to parse ssh_wait_timeout: "
    ((env.ParseDuration d.RawSSHWaitTimeout).2.getD "") hostError (by decide)
  simp only [rules, count_reported_cons, reported_nil, List.count_nil, h1, h2, h3, and_false,
    if_false, Nat.zero_add, Nat.add_zero]
  by_cases h : d.HostIp = "" <;> simp [h, hostError]

/-- The error for an empty `SSHUser` is reported once when the rule is violated, and
not at all otherwise. -/
theorem count_sshUserError {σ : Type} (env : Env) (d : CommonConfig σ) :
    (reported (rules env d)).count sshUserError =
      if d.SSHUser = "" then 1 else 0 := by
  have h1 := prefixed_ne "Failed to parse boot_wait: "
    ((env.ParseDuration d.RawBootWait).2.getD "") sshUserError (by decide)
  have h2 := prefixed_ne "ssh_key_path is invalid: "
    ((env.Stat d.SSHKeyPath).getD ((env.FileSigner d.SSHKeyPath).getD "")) sshUserError
    (by decide)
  have h3 := prefixed_ne "Failed to parse ssh_wait_timeout: "
    ((env.ParseDuration d.RawSSHWaitTimeout).2.getD "") sshUserError (by decide)
  simp only [rules, count_reported_cons, reported_nil, List.count_nil, h1, h2, h3, and_false,
    if_false, Nat.zero_add, Nat.add_zero]
  by_cases h : d.SSHUser = "" <;> simp [h, sshUserError]

/-- The error for a `Format` outside its set is reported once when the rule is violated, and
not at all otherwise. -/
theorem count_formatError {σ : Type} (env : Env) (d : CommonConfig σ) :
    (reported (rules env d)).count formatError =
      if d.Format ∈ ["xva", "xva_compressed", "vdi_raw", "vdi_vhd", "none"] then 0 else 1 := by
  have h1 := prefixed_ne "Failed to parse boot_wait: "
    ((env.ParseDuration d.RawBootWait).2.getD "") formatError (by decide)
  have h2 := prefixed_ne "ssh_key_path is invalid: "
    ((env.Stat d.SSHKeyPath).getD ((env.FileSigner d.SSHKeyPath).getD "")) formatError
    (by decide)
  have h3 := prefixed_ne "Failed to parse ssh_wait_timeout: "
    ((env.ParseDuration d.RawSSHWaitTimeout).2.getD "") formatError (by decide)
  simp only [rules, count_reported_cons, reported_nil, List.count_nil, h1, h2, h3, and_false,
    if_false, Nat.zero_add, Nat.add_zero]
  by_cases h : d.Format ∈ ["xva", "xva_compressed", "vdi_raw", "vdi_vhd", "none"] <;> simp [h, formatError]

/-- The error for a `KeepVM` outside its set is reported once when the rule is violated, and
not at all otherwise. -/
theorem count_keepVMError {σ : Type} (env : Env) (d : CommonConfig σ) :
    (reported (rules env d)).count keepVMError =
      if d.KeepVM ∈ ["always", "never", "on_success"] then 0 else 1 := by
  have h1 := prefixed_ne "Failed to parse boot_wait: "
    ((env.ParseDuration d.RawBootWait).2.getD "") keepVMError (by decide)
  have h2 := prefixed_ne "ssh_key_path is invalid: "
    ((env.Stat d.SSHKeyPath).getD ((env.FileSigner d.SSHKeyPath).getD "")) keepVMError
    (by decide)
  have h3 := prefixed_ne "Failed to parse ssh_wait_timeout: "
    ((env.ParseDuration d.RawSSHWaitTimeout).2.getD "") keepVMError (by decide)
  simp only [rules, count_reported_cons, reported_nil, List.count_nil, h1, h2, h3, and_false,
    if_false, Nat.zero_add, Nat.add_zero]
  by_cases h : d.KeepVM ∈ ["always", "never", "on_success"] <;> simp [h, keepVMError]

/-- The error for an `IPGetter` outside its set is reported once when the rule is violated, and
not at all otherwise. -/
theorem count_ipGetterError {σ : Type} (env : Env) (d : CommonConfig σ) :
    (reported (rules env d)).count ipGetterError =
      if d.IPGetter ∈ ["auto", "tools", "http"] then 0 else 1 := by
  have h1 := prefixed_ne "Failed to parse boot_wait: "
    ((env.ParseDuration d.RawBootWait).2.getD "") ipGetterError (by decide)
  have h2 := prefixed_ne "ssh_key_path is invalid: "
    ((env.Stat d.SSHKeyPath).getD ((env.FileSigner d.SSHKeyPath).getD "")) ipGetterError
    (by decide)
  have h3 := prefixed_ne "Failed to parse ssh_wait_timeout: "
    ((env.ParseDuration d.RawSSHWaitTimeout).2.getD "") ipGetterError (by decide)
  simp only [rules, count_reported_cons, reported_nil, List.count_nil, h1, h2, h3, and_false,
    if_false, Nat.zero_add, Nat.add_zero]
  by_cases h : d.IPGetter ∈ ["auto", "tools", "http"] <;> simp [h, ipGetterError]

/-- A fixed error is in the list exactly when it is counted once. -/
theorem mem_iff_count_ne_zero (a : Error) (l : List Error) : a ∈ l ↔ l.count a ≠ 0 := by
  rw [← List.count_pos_iff, Nat.pos_iff_ne_zero]

/-- The three enumeration errors, on a configuration whose defaults are
filled in. -/
theorem enumeration_errors {σ : Type} (env : Env) (d : CommonConfig σ) :
    (formatError ∈ reported (rules env d) ↔
      d.Format ∉ ["xva", "xva_compressed", "vdi_raw", "vdi_vhd", "none"]) ∧
    (keepVMError ∈ reported (rules env d) ↔ d.KeepVM ∉ ["always", "never", "on_success"]) ∧
    (ipGetterError ∈ reported (rules env d) ↔ d.IPGetter ∉ ["auto", "tools", "http"]) := by
  rw [mem_iff_count_ne_zero formatError, mem_iff_count_ne_zero keepVMError,
    mem_iff_count_ne_zero ipGetterError, count_formatError, count_keepVMError,
    count_ipGetterError]
  refine ⟨?_, ?_, ?_⟩ <;> split <;> simp [*]

/-- The fields that the enumeration checks read, after `Prepare`. -/
theorem Prepare_enumeration_fields {σ : Type} (c : CommonConfig σ) (env : Env)
    (pc : PackerConfig) :
    (c.Prepare env pc).2.Format = (c.setDefaults pc).Format ∧
    (c.Prepare env pc).2.KeepVM = (c.setDefaults pc).KeepVM ∧
    (c.Prepare env pc).2.IPGetter = (c.setDefaults pc).IPGetter := by
  rw [CommonConfig.Prepare_snd]
  generalize c.setDefaults pc = d
  exact ⟨rfl, rfl, rfl⟩

/-! ## Prepare: the enumerations -/

/-- C11: `Prepare` reports the format error exactly when the defaulted `Format`
is not one of xva, xva_compressed, vdi_raw, vdi_vhd, none; the keep_vm error
exactly when the defaulted `KeepVM` is not one of always, never, on_success;
the ip_getter error exactly when the defaulted `IPGetter` is not one of auto,
tools, http. An unset value is always accepted; "foo" is rejected for format
and keep_vm; "vdi_raw", "xva_compressed" and "always" are accepted. -/
theorem Prepare_enumerations {σ : Type} (c : CommonConfig σ) (env : Env) (pc : PackerConfig) :
    ((formatError ∈ (c.Prepare env pc).1 ↔
        (c.Prepare env pc).2.Format ∉ ["xva", "xva_compressed", "vdi_raw", "vdi_vhd", "none"]) ∧
      (keepVMError ∈ (c.Prepare env pc).1 ↔
        (c.Prepare env pc).2.KeepVM ∉ ["always", "never", "on_success"]) ∧
      (ipGetterError ∈ (c.Prepare env pc).1 ↔
        (c.Prepare env pc).2.IPGetter ∉ ["auto", "tools", "http"])) ∧
    ((c.Format = "" → formatError ∉ (c.Prepare env pc).1) ∧
      (c.KeepVM = "" → keepVMError ∉ (c.Prepare env pc).1) ∧
      (c.IPGetter = "" → ipGetterError ∉ (c.Prepare env pc).1)) ∧
    ((c.Format = "foo" → formatError ∈ (c.Prepare env pc).1) ∧
      (c.KeepVM = "foo" → keepVMError ∈ (c.Prepare env pc).1) ∧
      (c.Format = "vdi_raw" → formatError ∉ (c.Prepare env pc).1) ∧
      (c.Format = "xva_compressed" → formatError ∉ (c.Prepare env pc).1) ∧
      (c.KeepVM = "always" → keepVMError ∉ (c.Prepare env pc).1)) := by
  have hfield := Prepare_enumeration_fields c env pc
  have herr := enumeration_errors env (c.setDefaults pc)
  rw [← CommonConfig.Prepare_fst c env pc] at herr
  have hF : (c.setDefaults pc).Format = if c.Format = "" then "xva" else c.Format := by
    rw [CommonConfig.setDefaults_eq]
  have hK : (c.setDefaults pc).KeepVM = if c.KeepVM = "" then "never" else c.KeepVM := by
    rw [CommonConfig.setDefaults_eq]
  have hI : (c.setDefaults pc).IPGetter = if c.IPGetter = "" then "auto" else c.IPGetter := by
    rw [CommonConfig.setDefaults_eq]
  rw [hfield.1, hfield.2.1, hfield.2.2]
  refine ⟨herr, ⟨fun h => ?_, fun h => ?_, fun h => ?_⟩,
    ⟨fun h => ?_, fun h => ?_, fun h => ?_, fun h => ?_, fun h => ?_⟩⟩
  · rw [herr.1, hF, h]; decide
  · rw [herr.2.1, hK, h]; decide
  · rw [herr.2.2, hI, h]; decide
  · rw [herr.1, hF, h]; decide
  · rw [herr.2.1, hK, h]; decide
  · rw [herr.1, hF, h]; decide
  · rw [herr.1, hF, h]; decide
  · rw [herr.2.1, hK, h]; decide

/-- C11 on the values of `TestBuilderPrepare_Format` and
`TestBuilderPrepare_KeepVM`. -/
theorem Prepare_enumerations_witness :
    formatError ∈ ({ testConfig with Format := "foo" }.Prepare sampleEnv testBuild).1 ∧
    formatError ∉ ({ testConfig with Format := "vdi_raw" }.Prepare sampleEnv testBuild).1 ∧
    keepVMError ∈ ({ testConfig with KeepVM := "foo" }.Prepare sampleEnv testBuild).1 ∧
    keepVMError ∉ ({ testConfig with KeepVM := "always" }.Prepare sampleEnv testBuild).1 ∧
    ipGetterError ∉ (testConfig.Prepare sampleEnv testBuild).1 :=
  ⟨(Prepare_enumerations { testConfig with Format := "foo" } sampleEnv testBuild).2.2.1 rfl,
    (Prepare_enumerations { testConfig with Format := "vdi_raw" } sampleEnv
      testBuild).2.2.2.2.1 rfl,
    (Prepare_enumerations { testConfig with KeepVM := "foo" } sampleEnv testBuild).2.2.2.1 rfl,
    (Prepare_enumerations { testConfig with KeepVM := "always" } sampleEnv
      testBuild).2.2.2.2.2.2 rfl,
    (Prepare_enumerations testConfig sampleEnv testBuild).2.1.2.2 rfl⟩

/-- The defaults leave the four required fields as they are. -/
theorem setDefaults_required_fields {σ : Type} (c : CommonConfig σ) (pc : PackerConfig) :
    (c.setDefaults pc).Username = c.Username ∧ (c.setDefaults pc).Password = c.Password ∧
    (c.setDefaults pc).HostIp = c.HostIp ∧ (c.setDefaults pc).SSHUser = c.SSHUser := by
  rw [CommonConfig.setDefaults_eq]
  exact ⟨rfl, rfl, rfl, rfl⟩

/-! ## Prepare: the required fields -/

/-- C12: `Prepare` reports the "must be specified" error of `Username`,
`Password`, `HostIp` and `SSHUser` once when that field is empty and not at all
otherwise; so when `Prepare` returns no errors the four fields are non-empty;
and none of the four is ever defaulted: each has the same value after `Prepare`
as before. -/
theorem Prepare_required_fields {σ : Type} (c : CommonConfig σ) (env : Env)
    (pc : PackerConfig) :
    ((c.Prepare env pc).1.count usernameError = (if c.Username = "" then 1 else 0) ∧
      (c.Prepare env pc).1.count passwordError = (if c.Password = "" then 1 else 0) ∧
      (c.Prepare env pc).1.count hostError = (if c.HostIp = "" then 1 else 0) ∧
      (c.Prepare env pc).1.count sshUserError = (if c.SSHUser = "" then 1 else 0)) ∧
    ((c.Prepare env pc).1 = [] →
      (c.Prepare env pc).2.Username ≠ "" ∧ (c.Prepare env pc).2.Password ≠ "" ∧
      (c.Prepare env pc).2.HostIp ≠ "" ∧ (c.Prepare env pc).2.SSHUser ≠ "") ∧
    ((c.Prepare env pc).2.Username = c.Username ∧ (c.Prepare env pc).2.Password = c.Password ∧
      (c.Prepare env pc).2.HostIp = c.HostIp ∧ (c.Prepare env pc).2.SSHUser = c.SSHUser) := by
  have hreq := setDefaults_required_fields c pc
  have hcount : (c.Prepare env pc).1.count usernameError = (if c.Username = "" then 1 else 0) ∧
      (c.Prepare env pc).1.count passwordError = (if c.Password = "" then 1 else 0) ∧
      (c.Prepare env pc).1.count hostError = (if c.HostIp = "" then 1 else 0) ∧
      (c.Prepare env pc).1.count sshUserError = (if c.SSHUser = "" then 1 else 0) := by
    rw [CommonConfig.Prepare_fst, count_usernameError, count_passwordError, count_hostError,
      count_sshUserError, hreq.1, hreq.2.1, hreq.2.2.1, hreq.2.2.2]
    exact ⟨rfl, rfl, rfl, rfl⟩
  have hsame : (c.Prepare env pc).2.Username = c.Username ∧
      (c.Prepare env pc).2.Password = c.Password ∧
      (c.Prepare env pc).2.HostIp = c.HostIp ∧ (c.Prepare env pc).2.SSHUser = c.SSHUser := by
    rw [CommonConfig.Prepare_snd_eq]
    exact ⟨rfl, rfl, rfl, rfl⟩
  refine ⟨hcount, fun hok => ?_, hsame⟩
  rw [hok] at hcount
  rw [hsame.1, hsame.2.1, hsame.2.2.1, hsame.2.2.2]
  refine ⟨fun h => ?_, fun h => ?_, fun h => ?_, fun h => ?_⟩
  · have h1 := hcount.1
    rw [if_pos h] at h1
    exact absurd h1 (by decide)
  · have h1 := hcount.2.1
    rw [if_pos h] at h1
    exact absurd h1 (by decide)
  · have h1 := hcount.2.2.1
    rw [if_pos h] at h1
    exact absurd h1 (by decide)
  · have h1 := hcount.2.2.2
    rw [if_pos h] at h1
    exact absurd h1 (by decide)

/-- C12 on `testConfig`, which `Prepare` accepts, and on the configuration with
no key set, which gets each of the four errors once. -/
theorem Prepare_required_fields_witness :
    (testConfig.Prepare sampleEnv testBuild).1 = [] ∧
    ((testConfig.Prepare sampleEnv testBuild).2.Username ≠ "" ∧
      (testConfig.Prepare sampleEnv testBuild).2.Password ≠ "" ∧
      (testConfig.Prepare sampleEnv testBuild).2.HostIp ≠ "" ∧
      (testConfig.Prepare sampleEnv testBuild).2.SSHUser ≠ "") ∧
    ((CommonConfig.zero ()).Prepare sampleEnv testBuild).1.count usernameError = 1 ∧
    ((CommonConfig.zero ()).Prepare sampleEnv testBuild).1.count sshUserError = 1 :=
  ⟨by decide, (Prepare_required_fields testConfig sampleEnv testBuild).2.1 (by decide),
    (Prepare_required_fields (CommonConfig.zero ()) sampleEnv testBuild).1.1,
    (Prepare_required_fields (CommonConfig.zero ()) sampleEnv testBuild).1.2.2.2⟩

/-! ## Prepare: the example of the specification -/

/-- C13, as stated, fails: the example sets no ssh_username, and `Prepare`
returns the ssh_username error for it. -/
theorem specExample_rejected :
    specExample.SSHUser = "" ∧
    (specExample.Prepare sampleEnv testBuild).1 = ["An ssh_username must be specified."] := by
  decide

/-- C13, amended: the example of the specification with a non-empty
ssh_username added validates successfully, for every build name and every
duration parser that accepts the defaults "5s" and "200m": `Prepare` returns
an empty error list, and the resulting configuration has `Format` "xva",
`KeepVM` "never" and `IPGetter` "auto". Without the ssh_username the three
defaults are the same and the error list is the ssh_username error alone. -/
theorem specExample_with_ssh_username (env : Env) (pc : PackerConfig) (u : String)
    (hu : u ≠ "") (hboot : (env.ParseDuration "5s").2 = none)
    (hssh : (env.ParseDuration "200m").2 = none) :
    (({ specExample with SSHUser := u }.Prepare env pc).1 = [] ∧
      ({ specExample with SSHUser := u }.Prepare env pc).2.Format = "xva" ∧
      ({ specExample with SSHUser := u }.Prepare env pc).2.KeepVM = "never" ∧
      ({ specExample with SSHUser := u }.Prepare env pc).2.IPGetter = "auto") ∧
    ((specExample.Prepare env pc).1 = [sshUserError] ∧
      (specExample.Prepare env pc).2.Format = "xva" ∧
      (specExample.Prepare env pc).2.KeepVM = "never" ∧
      (specExample.Prepare env pc).2.IPGetter = "auto") := by
  refine ⟨⟨?_, ?_, ?_, ?_⟩, ⟨?_, ?_, ?_, ?_⟩⟩
  · rw [CommonConfig.Prepare_fst, CommonConfig.setDefaults_eq]
    simp [rules, reported, specExample, CommonConfig.zero, hu, hboot, hssh]
  · rw [CommonConfig.Prepare_snd_eq]; rfl
  · rw [CommonConfig.Prepare_snd_eq]; rfl
  · rw [CommonConfig.Prepare_snd_eq]; rfl
  · rw [CommonConfig.Prepare_fst, CommonConfig.setDefaults_eq]
    simp [rules, reported, specExample, CommonConfig.zero, hboot, hssh, sshUserError]
  · rw [CommonConfig.Prepare_snd_eq]; rfl
  · rw [CommonConfig.Prepare_snd_eq]; rfl
  · rw [CommonConfig.Prepare_snd_eq]; rfl

/-- C13, amended, with the ssh_username "foo" of `testConfig`. -/
theorem specExample_with_ssh_username_witness :
    ({ specExample with SSHUser := "foo" }.Prepare sampleEnv testBuild).1 = [] ∧
    ({ specExample with SSHUser := "foo" }.Prepare sampleEnv testBuild).2.Format = "xva" ∧
    ({ specExample with SSHUser := "foo" }.Prepare sampleEnv testBuild).2.KeepVM = "never" ∧
    ({ specExample with SSHUser := "foo" }.Prepare sampleEnv testBuild).2.IPGetter = "auto" :=
  (specExample_with_ssh_username sampleEnv testBuild "foo" (by decide) rfl rfl).1

/-! ## Running `Prepare` on its own result -/

/-- A default that is not the unset value is not applied twice. -/
theorem default_idem {α : Type} [DecidableEq α] (z a v : α) (hv : v ≠ z) :
    (if (if a = z then v else a) = z then v else if a = z then v else a) =
      if a = z then v else a := by
  by_cases h : a = z
  · simp only [h, if_true, hv, if_false]
  · simp only [h, if_false]

theorem defaultOutputDir_ne_empty (n : String) : "output-" ++ n ≠ "" :=
  prefixed_ne "output-" n "" (by decide)

theorem defaultVMName_ne_empty (n : String) :
    "packer-" ++ n ++ "-\x7b\x7btimestamp\x7d\x7d" ≠ "" := by
  intro hempty
  have hlen := congrArg String.length hempty
  simp only [String.length_append] at hlen
  have h7 : "-\x7b\x7btimestamp\x7d\x7d".length = 14 := by decide
  have h0 : "".length = 0 := by decide
  omega

/-- The defaults change nothing in a configuration that `Prepare` returned. -/
theorem setDefaults_Prepare {σ : Type} (c : CommonConfig σ) (env : Env) (pc : PackerConfig) :
    (c.Prepare env pc).2.setDefaults pc = (c.Prepare env pc).2 := by
  rw [CommonConfig.setDefaults_eq, CommonConfig.Prepare_snd_eq]
  simp only [default_idem (0 : Nat) _ 5900 (by decide), default_idem (0 : Nat) _ 6000 (by decide),
    default_idem (0 : Nat) _ 8000 (by decide), default_idem (0 : Nat) _ 9000 (by decide),
    default_idem (0 : Nat) _ 22 (by decide), default_idem "" _ "5s" (by decide),
    default_idem "" _ "200m" (by decide), default_idem "" _ "xs-tools.iso" (by decide),
    default_idem "" _ "xva" (by decide), default_idem "" _ "never" (by decide),
    default_idem "" _ "auto" (by decide),
    default_idem "" _ _ (defaultOutputDir_ne_empty pc.PackerBuildName),
    default_idem "" _ _ (defaultVMName_ne_empty pc.PackerBuildName),
    default_idem (none : Option (List String)) _ (some []) (by decide)]

/-- The validation of a configuration that `Prepare` returned gives the same
errors and leaves it as it is. -/
theorem validation_Prepare {σ : Type} (c : CommonConfig σ) (env : Env) (pc : PackerConfig) :
    (c.Prepare env pc).2.validation env = c.Prepare env pc := by
  unfold CommonConfig.Prepare
  generalize c.setDefaults pc = d
  apply Prod.ext
  · rw [CommonConfig.validation_fst, CommonConfig.validation_fst, rules_validation]
  · rfl

/-- `Prepare` run on a configuration that it returned gives the same errors
and the same configuration. -/
theorem Prepare_Prepare {σ : Type} (c : CommonConfig σ) (env : Env) (pc : PackerConfig) :
    (c.Prepare env pc).2.Prepare env pc = c.Prepare env pc := by
  have h : (c.Prepare env pc).2.Prepare env pc =
      ((c.Prepare env pc).2.setDefaults pc).validation env := rfl
  rw [h, setDefaults_Prepare, validation_Prepare]

/-- C14: validation is idempotent. When `Prepare` returns no errors, running it
again on the resulting configuration, with the same build name, duration
parser, file system and key parser, returns no errors and leaves every field
of the configuration unchanged. -/
theorem Prepare_idempotent {σ : Type} (c : CommonConfig σ) (env : Env) (pc : PackerConfig)
    (hok : (c.Prepare env pc).1 = []) :
    ((c.Prepare env pc).2.Prepare env pc).1 = [] ∧
    ((c.Prepare env pc).2.Prepare env pc).2 = (c.Prepare env pc).2 := by
  rw [Prepare_Prepare]
  exact ⟨hok, rfl⟩

/-- C14 on `testConfig`: the second run returns no errors and the same
configuration. -/
theorem Prepare_idempotent_witness :
    (testConfig.Prepare sampleEnv testBuild).1 = [] ∧
    ((testConfig.Prepare sampleEnv testBuild).2.Prepare sampleEnv testBuild).1 = [] ∧
    ((testConfig.Prepare sampleEnv testBuild).2.Prepare sampleEnv testBuild).2 =
      (testConfig.Prepare sampleEnv testBuild).2 :=
  ⟨by decide, Prepare_idempotent testConfig sampleEnv testBuild (by decide)⟩

/-! ## ShouldKeepVM after validation -/

/-- `ShouldKeepVM` returns a boolean when `KeepVM` is in its set. -/
theorem ShouldKeepVM_returns {σ V : Type} (k : CommonConfig σ) (state : StateBag V)
    (h : k.KeepVM ∈ ["always", "never", "on_success"]) :
    ∃ b, k.ShouldKeepVM state = .returns b := by
  simp only [List.mem_cons, List.mem_singleton, List.mem_nil_iff, or_false] at h
  rcases h with h | h | h
  · exact ⟨true, by simp [CommonConfig.ShouldKeepVM, h]⟩
  · exact ⟨false, by simp [CommonConfig.ShouldKeepVM, h]⟩
  · exact ⟨_, by simp only [CommonConfig.ShouldKeepVM, h]; rfl⟩

/-- `ShouldKeepVM` panics when `KeepVM` is outside its set. -/
theorem ShouldKeepVM_panics {σ V : Type} (k : CommonConfig σ) (state : StateBag V)
    (h : k.KeepVM ∉ ["always", "never", "on_success"]) :
    k.ShouldKeepVM state = .panics ("Unknown keep_vm value '" ++ k.KeepVM ++ "'") := by
  simp only [List.mem_cons, List.mem_singleton, List.mem_nil_iff, or_false, not_or] at h
  simp only [CommonConfig.ShouldKeepVM, h.1, h.2.1, h.2.2, if_false]

/-- C15: `ShouldKeepVM` panics exactly when `KeepVM` is not one of "always",
"never", "on_success", the empty string included; and validation excludes
this: when `Prepare` returns no errors, `ShouldKeepVM` on the resulting
configuration returns a boolean, without panicking, for every state. -/
theorem ShouldKeepVM_panics_iff {σ V : Type} (k c : CommonConfig σ) (env : Env)
    (pc : PackerConfig) (state : StateBag V) :
    ((∃ msg, k.ShouldKeepVM state = .panics msg) ↔
      k.KeepVM ∉ ["always", "never", "on_success"]) ∧
    ({ k with KeepVM := "" }.ShouldKeepVM state = .panics "Unknown keep_vm value ''") ∧
    ((c.Prepare env pc).1 = [] →
      ∃ b, (c.Prepare env pc).2.ShouldKeepVM state = .returns b) := by
  refine ⟨⟨fun hp hmem => ?_, fun h => ⟨_, ShouldKeepVM_panics k state h⟩⟩, ?_, fun hok => ?_⟩
  · obtain ⟨msg, hmsg⟩ := hp
    obtain ⟨b, hb⟩ := ShouldKeepVM_returns k state hmem
    rw [hb] at hmsg
    exact Outcome.noConfusion hmsg
  · exact ShouldKeepVM_panics { k with KeepVM := "" } state (by simp)
  · apply ShouldKeepVM_returns
    by_contra hnot
    have hmem : keepVMError ∈ (c.Prepare env pc).1 := by
      rw [CommonConfig.Prepare_fst, (enumeration_errors env (c.setDefaults pc)).2.1,
        ← (Prepare_enumeration_fields c env pc).2.1]
      exact hnot
    rw [hok] at hmem
    exact List.not_mem_nil _ hmem

/-- C15 on `testConfig` with keep_vm "on_success", which `Prepare` accepts, and
on a configuration that never went through `Prepare`. -/
theorem ShouldKeepVM_panics_iff_witness :
    ({ testConfig with KeepVM := "on_success" }.Prepare sampleEnv testBuild).1 = [] ∧
    (∃ b, ({ testConfig with KeepVM := "on_success" }.Prepare sampleEnv
      testBuild).2.ShouldKeepVM (bagOf ["halted"]) = .returns b) ∧
    testConfig.ShouldKeepVM (bagOf []) = .panics "Unknown keep_vm value ''" :=
  ⟨by decide,
    (ShouldKeepVM_panics_iff testConfig { testConfig with KeepVM := "on_success" } sampleEnv
      testBuild (bagOf ["halted"])).2.2 (by decide),
    (ShouldKeepVM_panics_iff testConfig testConfig sampleEnv testBuild (bagOf [])).2.1⟩

/-! ## Prepare: the durations -/

/-- C16, as stated, fails: `Prepare` has no check on the sign of a duration.
With boot_wait "-5s", or ssh_wait_timeout "-5s", and a parser that reads it as
minus five seconds, `Prepare` returns no errors and stores the negative
duration. -/
theorem Prepare_accepts_negative_duration :
    ({ testConfig with RawBootWait := "-5s" }.Prepare signedEnv testBuild).1 = [] ∧
    ({ testConfig with RawBootWait := "-5s" }.Prepare signedEnv testBuild).2.BootWait =
      -5 * Second ∧
    ({ testConfig with RawBootWait := "-5s" }.Prepare signedEnv testBuild).2.BootWait < 0 ∧
    ({ testConfig with RawSSHWaitTimeout := "-5s" }.Prepare signedEnv testBuild).1 = [] ∧
    ({ testConfig with RawSSHWaitTimeout := "-5s" }.Prepare signedEnv
      testBuild).2.SSHWaitTimeout < 0 := by
  decide

/-- C16, amended: when `Prepare` returns no errors, the duration parser
accepted `RawBootWait` and `RawSSHWaitTimeout` (it returned no error for
either), and `BootWait` and `SSHWaitTimeout` are the durations it returned. No
sign is required of them. -/
theorem Prepare_ok_durations {σ : Type} (c : CommonConfig σ) (env : Env) (pc : PackerConfig)
    (hok : (c.Prepare env pc).1 = []) :
    env.ParseDuration (c.Prepare env pc).2.RawBootWait = ((c.Prepare env pc).2.BootWait, none) ∧
    env.ParseDuration (c.Prepare env pc).2.RawSSHWaitTimeout =
      ((c.Prepare env pc).2.SSHWaitTimeout, none) := by
  unfold CommonConfig.Prepare at hok ⊢
  generalize c.setDefaults pc = d at hok ⊢
  rw [CommonConfig.validation_fst, reported_eq_nil] at hok
  have hboot := hok ⟨(env.ParseDuration d.RawBootWait).2.isSome,
    "Failed to parse boot_wait: " ++ (env.ParseDuration d.RawBootWait).2.getD ""⟩
    (by simp [rules])
  have hssh := hok ⟨(env.ParseDuration d.RawSSHWaitTimeout).2.isSome,
    "Failed to parse ssh_wait_timeout: " ++ (env.ParseDuration d.RawSSHWaitTimeout).2.getD ""⟩
    (by simp [rules])
  have hnone : ∀ o : Option Error, o.isSome = false → o = none := by
    intro o ho
    cases o
    · rfl
    · exact absurd ho (by simp)
  exact ⟨Prod.ext rfl (hnone _ hboot), Prod.ext rfl (hnone _ hssh)⟩

/-- C16, amended, on `testConfig` with the default durations. -/
theorem Prepare_ok_durations_witness :
    (testConfig.Prepare sampleEnv testBuild).1 = [] ∧
    sampleEnv.ParseDuration (testConfig.Prepare sampleEnv testBuild).2.RawBootWait =
      ((testConfig.Prepare sampleEnv testBuild).2.BootWait, none) ∧
    sampleEnv.ParseDuration (testConfig.Prepare sampleEnv testBuild).2.RawSSHWaitTimeout =
      ((testConfig.Prepare sampleEnv testBuild).2.SSHWaitTimeout, none) :=
  ⟨by decide, Prepare_ok_durations testConfig sampleEnv testBuild (by decide)⟩

/-! ## GetSR without a name -/

/-- The loop returns the default SR of the first pool record whose master is
the host. -/
theorem findDefaultSR_first (host : HostRef) (pre post : List (PoolRef × PoolRecord))
    (p : PoolRef × PoolRecord) (hpre : ∀ q ∈ pre, q.2.Master ≠ host)
    (hp : p.2.Master = host) :
    findDefaultSR host (pre ++ p :: post) = some p.2.DefaultSR := by
  induction pre with
  | nil => simp [findDefaultSR, hp]
  | cons q rest ih =>
    have hq : q.2.Master ≠ host := hpre q (List.mem_cons_self _ _)
    have hrest : ∀ r ∈ rest, r.2.Master ≠ host := fun r hr => hpre r (List.mem_cons_of_mem _ hr)
    simp [findDefaultSR, hq, ih hrest]

/-- The loop finds nothing when no pool record has the host as its master. -/
theorem findDefaultSR_none (host : HostRef) (pools : List (PoolRef × PoolRecord))
    (hall : ∀ q ∈ pools, q.2.Master ≠ host) : findDefaultSR host pools = none := by
  induction pools with
  | nil => rfl
  | cons q rest ih =>
    have hq : q.2.Master ≠ host := hall q (List.mem_cons_self _ _)
    have hrest : ∀ r ∈ rest, r.2.Master ≠ host := fun r hr => hall r (List.mem_cons_of_mem _ hr)
    simp [findDefaultSR, hq, ih hrest]

/-- `GetSR` without a name, when the host and pool queries succeed. -/
theorem GetSR_unnamed {σ : Type} (config : CommonConfig σ) (c : Connection) (host : HostRef)
    (pools : List (PoolRef × PoolRecord)) (hname : config.SrName = "")
    (hhost : c.GetThisHost = (host, none)) (hpools : c.PoolGetAllRecords = (pools, none)) :
    config.GetSR c =
      match findDefaultSR host pools with
      | some sr => ⟨sr, none, [.GetThisHost, .PoolGetAllRecords]⟩
      | none =>
        ⟨"", some ("failed to find default SR on host '" ++ host ++ "'"),
          [.GetThisHost, .PoolGetAllRecords]⟩ := by
  simp only [CommonConfig.GetSR, hname, if_true, hhost, hpools]

/-- C17: with an empty `SrName` and successful host and pool queries, `GetSR`
returns, with no error, the default SR of the pool whose master is the calling
host (the first such pool record in the order the records are visited); when
no pool record has the calling host as master it returns the error "failed to
find default SR ..." with the empty reference. It sends the host query and the
pool query and never the by-name lookup. -/
theorem GetSR_default {σ : Type} (config : CommonConfig σ) (c : Connection) (host : HostRef)
    (pools : List (PoolRef × PoolRecord)) (hname : config.SrName = "")
    (hhost : c.GetThisHost = (host, none)) (hpools : c.PoolGetAllRecords = (pools, none)) :
    (∀ pre p post, pools = pre ++ p :: post → (∀ q ∈ pre, q.2.Master ≠ host) →
      p.2.Master = host →
      config.GetSR c = ⟨p.2.DefaultSR, none, [.GetThisHost, .PoolGetAllRecords]⟩) ∧
    ((∀ q ∈ pools, q.2.Master ≠ host) →
      config.GetSR c =
        ⟨"", some ("failed to find default SR on host '" ++ host ++ "'"),
          [.GetThisHost, .PoolGetAllRecords]⟩) ∧
    (config.GetSR c).queries = [.GetThisHost, .PoolGetAllRecords] ∧
    (∀ label, Query.SRGetByNameLabel label ∉ (config.GetSR c).queries) := by
  have h := GetSR_unnamed config c host pools hname hhost hpools
  have hq : (config.GetSR c).queries = [.GetThisHost, .PoolGetAllRecords] := by
    rw [h]
    cases findDefaultSR host pools <;> rfl
  refine ⟨fun pre p post hsplit hpre hp => ?_, fun hall => ?_, hq, fun label => ?_⟩
  · rw [h, hsplit, findDefaultSR_first host pre post p hpre hp]
  · rw [h, findDefaultSR_none host pools hall]
  · rw [hq]
    simp

/-- C17 on the sample pool: from its master the default SR is returned, from
another host the error. -/
theorem GetSR_default_witness :
    testConfig.GetSR samplePool =
      ⟨"OpaqueRef:sr-default", none, [.GetThisHost, .PoolGetAllRecords]⟩ ∧
    testConfig.GetSR orphanPool =
      ⟨"", some "failed to find default SR on host 'OpaqueRef:host1'",
        [.GetThisHost, .PoolGetAllRecords]⟩ :=
  ⟨(GetSR_default testConfig samplePool "OpaqueRef:host0"
      [("OpaqueRef:pool0", ⟨"OpaqueRef:host0", "OpaqueRef:sr-default"⟩)] rfl rfl rfl).1
      [] ("OpaqueRef:pool0", ⟨"OpaqueRef:host0", "OpaqueRef:sr-default"⟩) [] rfl
      (fun _ h => absurd h (List.not_mem_nil _)) rfl,
    (GetSR_default testConfig orphanPool "OpaqueRef:host1"
      [("OpaqueRef:pool0", ⟨"OpaqueRef:host0", "OpaqueRef:sr-default"⟩)] rfl rfl rfl).2.1
      (by decide)⟩

/-! ## Errors of the pool connection -/

/-- C18: when a pool query made by `GetSR` (the host query, the pool-records
query or the by-name-label query) or by `GetISOSR` (its by-name-label query)
fails with the error `e`, the operation returns exactly `e` with the empty
reference, and the failed query is the last one it sends. -/
theorem resolver_query_errors {σ : Type} (config : CommonConfig σ) (c : Connection)
    (e : Error) :
    (∀ host, config.SrName = "" → c.GetThisHost = (host, some e) →
      config.GetSR c = ⟨"", some e, [.GetThisHost]⟩) ∧
    (∀ host pools, config.SrName = "" → c.GetThisHost = (host, none) →
      c.PoolGetAllRecords = (pools, some e) →
      config.GetSR c = ⟨"", some e, [.GetThisHost, .PoolGetAllRecords]⟩) ∧
    (∀ srs, config.SrName ≠ "" → c.SRGetByNameLabel config.SrName = (srs, some e) →
      config.GetSR c = ⟨"", some e, [.SRGetByNameLabel config.SrName]⟩) ∧
    (∀ srs, config.SrISOName ≠ "" → c.SRGetByNameLabel config.SrName = (srs, some e) →
      config.GetISOSR c = ⟨"", some e, [.SRGetByNameLabel config.SrName]⟩) := by
  refine ⟨fun host hname hhost => ?_, fun host pools hname hhost hpools => ?_,
    fun srs hname hq => ?_, fun srs hname hq => ?_⟩
  · simp only [CommonConfig.GetSR, hname, if_true, hhost]
  · simp only [CommonConfig.GetSR, hname, if_true, hhost, hpools]
  · simp only [CommonConfig.GetSR, hname, if_false, hq]
  · simp only [CommonConfig.GetISOSR, hname, if_false, hq]

/-- C18 on connections whose queries fail. -/
theorem resolver_query_errors_witness :
    testConfig.GetSR downPool = ⟨"", some "connection refused", [.GetThisHost]⟩ ∧
    testConfig.GetSR halfDownPool =
      ⟨"", some "session invalid", [.GetThisHost, .PoolGetAllRecords]⟩ ∧
    ({ testConfig with SrName := "vm-store" }).GetSR downPool =
      ⟨"", some "connection refused", [.SRGetByNameLabel "vm-store"]⟩ ∧
    ({ testConfig with SrName := "vm-store", SrISOName := "iso-store" }).GetISOSR downPool =
      ⟨"", some "connection refused", [.SRGetByNameLabel "vm-store"]⟩ :=
  ⟨(resolver_query_errors testConfig downPool "connection refused").1 "" rfl rfl,
    (resolver_query_errors testConfig halfDownPool "session invalid").2.1 "OpaqueRef:host0" []
      rfl rfl rfl,
    (resolver_query_errors { testConfig with SrName := "vm-store" } downPool
      "connection refused").2.2.1 [] (by decide) rfl,
    (resolver_query_errors { testConfig with SrName := "vm-store", SrISOName := "iso-store" }
      downPool "connection refused").2.2.2 [] (by decide) rfl⟩

/-! ## The checksum descriptor -/

theorem splitAlgorithm_no_colon (l : List Char) (h : ':' ∉ l) :
    splitAlgorithm l = (l, none) := by
  induction l with
  | nil => rfl
  | cons c cs ih =>
    have hc : c ≠ ':' := fun heq => h (heq ▸ List.mem_cons_self _ _)
    have hcs : ':' ∉ cs := fun hmem => h (List.mem_cons_of_mem _ hmem)
    simp [splitAlgorithm, hc, ih hcs]

theorem splitAlgorithm_colon (a rest : List Char) (h : ':' ∉ a) :
    splitAlgorithm (a ++ ':' :: rest) = (a, some rest) := by
  induction a with
  | nil => simp [splitAlgorithm]
  | cons c cs ih =>
    have hc : c ≠ ':' := fun heq => h (heq ▸ List.mem_cons_self _ _)
    have hcs : ':' ∉ cs := fun hmem => h (List.mem_cons_of_mem _ hmem)
    simp [splitAlgorithm, hc, ih hcs]

theorem hex_no_colon (l : List Char) (h : l.all isHexDigit = true) : ':' ∉ l := by
  intro hmem
  have hcolon := List.all_eq_true.1 h _ hmem
  exact absurd hcolon (by decide)

theorem hex_ne_none (d : String) (h : d.data.all isHexDigit = true) : d ≠ "none" := by
  intro heq
  subst heq
  exact absurd h (by decide)

/-- A descriptor without a colon, other than "none", is accepted when it is
made of hex digits and has a known length. -/
theorem checksumAccepted_bare (d : String) (hnone : d ≠ "none") (hcolon : ':' ∉ d.data) :
    checksumAccepted d =
      (d.data.all isHexDigit && decide (d.length ∈ [32, 40, 64, 128])) := by
  unfold checksumAccepted
  rw [if_neg hnone, splitAlgorithm_no_colon _ hcolon]
  rfl

theorem prefixed_ne_none (p d : String) : p ++ ":" ++ d ≠ "none" := by
  intro heq
  have h := congrArg String.data heq
  simp only [String.data_append] at h
  have hmem : ':' ∈ ['n', 'o', 'n', 'e'] := by
    rw [← h]
    simp
  exact absurd hmem (by decide)

/-- A descriptor with a prefix is accepted when the prefix names an algorithm
and the digest is made of hex digits and has the length of that algorithm. -/
theorem checksumAccepted_prefixed (p d : String) (hp : ':' ∉ p.data) :
    checksumAccepted (p ++ ":" ++ d) =
      match digestLength (String.mk (p.data.map Char.toLower)) with
      | some n => d.data.all isHexDigit && decide (d.length = n)
      | none => false := by
  unfold checksumAccepted
  rw [if_neg (prefixed_ne_none p d)]
  have hdata : (p ++ ":" ++ d).data = p.data ++ ':' :: d.data := by
    simp [String.data_append]
  rw [hdata, splitAlgorithm_colon _ _ hp]
  rfl

/-- The four prefixes, with the digest length of each. -/
theorem checksumAccepted_known_prefix (d : String) :
    checksumAccepted ("md5:" ++ d) = (d.data.all isHexDigit && decide (d.length = 32)) ∧
    checksumAccepted ("sha1:" ++ d) = (d.data.all isHexDigit && decide (d.length = 40)) ∧
    checksumAccepted ("sha256:" ++ d) = (d.data.all isHexDigit && decide (d.length = 64)) ∧
    checksumAccepted ("sha512:" ++ d) = (d.data.all isHexDigit && decide (d.length = 128)) :=
  ⟨checksumAccepted_prefixed "md5" d (by decide),
    checksumAccepted_prefixed "sha1" d (by decide),
    checksumAccepted_prefixed "sha256" d (by decide),
    checksumAccepted_prefixed "sha512" d (by decide)⟩

/-- C19: the configuration-time check of the checksum descriptor accepts every
digest made of hex digits (upper or lower case) of length 32, 40, 64 or 128,
alone or behind the prefix of its algorithm (md5:, sha1:, sha256:, sha512:),
and accepts the literal "none"; it rejects the empty descriptor, a hex digest
whose length matches no known algorithm (alone or behind any of the four
prefixes), and a digest with a character that is not a hex digit. -/
theorem checksumAccepted_spec (d : String) :
    (d.data.all isHexDigit = true →
      (d.length = 32 → checksumAccepted d = true ∧ checksumAccepted ("md5:" ++ d) = true) ∧
      (d.length = 40 → checksumAccepted d = true ∧ checksumAccepted ("sha1:" ++ d) = true) ∧
      (d.length = 64 → checksumAccepted d = true ∧ checksumAccepted ("sha256:" ++ d) = true) ∧
      (d.length = 128 → checksumAccepted d = true ∧ checksumAccepted ("sha512:" ++ d) = true) ∧
      (d.length ∉ [32, 40, 64, 128] →
        checksumAccepted d = false ∧ checksumAccepted ("md5:" ++ d) = false ∧
        checksumAccepted ("sha1:" ++ d) = false ∧ checksumAccepted ("sha256:" ++ d) = false ∧
        checksumAccepted ("sha512:" ++ d) = false)) ∧
    (d.data.all isHexDigit = false →
      (d ≠ "none" → ':' ∉ d.data → checksumAccepted d = false) ∧
      checksumAccepted ("md5:" ++ d) = false ∧ checksumAccepted ("sha1:" ++ d) = false ∧
      checksumAccepted ("sha256:" ++ d) = false ∧ checksumAccepted ("sha512:" ++ d) = false) ∧
    (∀ ch ∈ "0123456789abcdefABCDEF".data, isHexDigit ch = true) ∧
    checksumAccepted "none" = true ∧ checksumAccepted "" = false := by
  have hk := checksumAccepted_known_prefix d
  refine ⟨fun hhex => ?_, fun hnot => ?_, by decide, by decide, by decide⟩
  · have hb := checksumAccepted_bare d (hex_ne_none d hhex) (hex_no_colon _ hhex)
    rw [hhex] at hb hk
    simp only [Bool.true_and] at hb hk
    rw [hb, hk.1, hk.2.1, hk.2.2.1, hk.2.2.2]
    refine ⟨fun h => ?_, fun h => ?_, fun h => ?_, fun h => ?_, fun h => ?_⟩
    · simp [h]
    · simp [h]
    · simp [h]
    · simp [h]
    · simp only [List.mem_cons, List.mem_singleton, List.mem_nil_iff, or_false, not_or] at h
      simp [h.1, h.2.1, h.2.2.1, h.2.2.2]
  · rw [hnot] at hk
    simp only [Bool.false_and] at hk
    refine ⟨fun hnone hcolon => ?_, hk.1, hk.2.1, hk.2.2.1, hk.2.2.2⟩
    rw [checksumAccepted_bare d hnone hcolon, hnot]
    rfl

/-- C19 on the descriptors of `TestBuilderPrepare_ISOChecksum`: the MD5 digest
of the test in both cases, alone and behind its prefix, is accepted; the three
bad descriptors of the test are rejected. -/
theorem checksumAccepted_spec_witness :
    (checksumAccepted "A221725EE181A44C67E25BD6A2516742" = true ∧
      checksumAccepted "md5:A221725EE181A44C67E25BD6A2516742" = true) ∧
    (checksumAccepted "a221725ee181a44c67e25bd6a2516742" = true ∧
      checksumAccepted "md5:a221725ee181a44c67e25bd6a2516742" = true) ∧
    checksumAccepted "A221725EE181A44C6742BAD" = false ∧
    checksumAccepted "md5:A221725EE181A44C6742BAD" = false ∧
    checksumAccepted "Z221725EE181A44C67E25BD6A2516BAD" = false :=
  ⟨((checksumAccepted_spec "A221725EE181A44C67E25BD6A2516742").1 (by decide)).1 (by decide),
    ((checksumAccepted_spec "a221725ee181a44c67e25bd6a2516742").1 (by decide)).1 (by decide),
    (((checksumAccepted_spec "A221725EE181A44C6742BAD").1 (by decide)).2.2.2.2 (by decide)).1,
    (((checksumAccepted_spec "A221725EE181A44C6742BAD").1 (by decide)).2.2.2.2 (by decide)).2.1,
    ((checksumAccepted_spec "Z221725EE181A44C67E25BD6A2516BAD").2.1 (by decide)).1 (by decide)
      (by decide)⟩

/-! ## The ISO source -/

/-- C20: the ISO source is mutually exclusive. The check succeeds when exactly
one of iso_url, iso_urls, iso_name is populated, and reports an error when none
is or when more than one is (iso_url with iso_urls, or iso_name with either URL
form); when only iso_urls is set, the `ISOUrls` of the validated configuration
is the supplied list, in order. -/
theorem validateISOSource_exclusive (c : Config) :
    ((c.ISOUrl ≠ "" → c.ISOUrls.getD [] = [] → c.ISOName = "" → validateISOSource c = some c) ∧
      (c.ISOUrl = "" → c.ISOUrls.getD [] ≠ [] → c.ISOName = "" →
        ∃ v, validateISOSource c = some v ∧ v.ISOUrls = c.ISOUrls) ∧
      (c.ISOUrl = "" → c.ISOUrls.getD [] = [] → c.ISOName ≠ "" →
        validateISOSource c = some c)) ∧
    ((c.ISOUrl = "" → c.ISOUrls.getD [] = [] → c.ISOName = "" → validateISOSource c = none) ∧
      (c.ISOUrl ≠ "" → c.ISOUrls.getD [] ≠ [] → validateISOSource c = none) ∧
      (c.ISOName ≠ "" → c.ISOUrl ≠ "" → validateISOSource c = none) ∧
      (c.ISOName ≠ "" → c.ISOUrls.getD [] ≠ [] → validateISOSource c = none)) ∧
    ((validateISOSource c).isSome = true ↔ populatedISOSources c = 1) := by
  refine ⟨⟨fun h1 h2 h3 => ?_, fun h1 h2 h3 => ⟨c, ?_, rfl⟩, fun h1 h2 h3 => ?_⟩,
    ⟨fun h1 h2 h3 => ?_, fun h1 h2 => ?_, fun h1 h2 => ?_, fun h1 h2 => ?_⟩, ?_⟩
  · simp [validateISOSource, populatedISOSources, h1, h2, h3]
  · simp [validateISOSource, populatedISOSources, h1, h2, h3]
  · simp [validateISOSource, populatedISOSources, h1, h2, h3]
  · simp [validateISOSource, populatedISOSources, h1, h2, h3]
  · by_cases h3 : c.ISOName = "" <;> simp [validateISOSource, populatedISOSources, h1, h2, h3]
  · by_cases h3 : c.ISOUrls.getD [] = [] <;>
      simp [validateISOSource, populatedISOSources, h1, h2, h3]
  · by_cases h3 : c.ISOUrl = "" <;> simp [validateISOSource, populatedISOSources, h1, h2, h3]
  · unfold validateISOSource
    split <;> simp [*]

/-- C20 on the configurations of `TestBuilderPrepare_ISOUrl` and
`TestBuilderPrepare_ISOName`. -/
theorem validateISOSource_exclusive_witness :
    validateISOSource { testISOConfig with ISOUrl := "" } = none ∧
    validateISOSource { testISOConfig with ISOUrl := "http://www.packer.io" } =
      some { testISOConfig with ISOUrl := "http://www.packer.io" } ∧
    validateISOSource { testISOConfig with
      ISOUrl := "http://www.packer.io", ISOUrls := some ["http://www.packer.io"] } = none ∧
    (∃ v, validateISOSource { testISOConfig with
        ISOUrl := "", ISOUrls := some ["http://www.packer.io", "http://www.hashicorp.com"] } =
          some v ∧
      v.ISOUrls = some ["http://www.packer.io", "http://www.hashicorp.com"]) ∧
    validateISOSource { testISOConfig with ISOName := "my_iso" } = none ∧
    validateISOSource { testISOConfig with ISOUrl := "", ISOName := "my_iso" } =
      some { testISOConfig with ISOUrl := "", ISOName := "my_iso" } :=
  ⟨(validateISOSource_exclusive { testISOConfig with ISOUrl := "" }).2.1.1 rfl rfl rfl,
    (validateISOSource_exclusive { testISOConfig with ISOUrl := "http://www.packer.io" }).1.1
      (by decide) rfl rfl,
    (validateISOSource_exclusive { testISOConfig with
      ISOUrl := "http://www.packer.io", ISOUrls := some ["http://www.packer.io"] }).2.1.2.1
      (by decide) (by decide),
    (validateISOSource_exclusive { testISOConfig with
      ISOUrl := "", ISOUrls := some ["http://www.packer.io", "http://www.hashicorp.com"] }).1.2.1
      rfl (by decide) rfl,
    (validateISOSource_exclusive { testISOConfig with ISOName := "my_iso" }).2.1.2.2.1
      (by decide) (by decide),
    (validateISOSource_exclusive { testISOConfig with ISOUrl := "", ISOName := "my_iso" }).1.2.2
      rfl rfl (by decide)⟩

/-! ## Prepare: the default of ssh_wait_timeout -/

/-- C21: when ssh_wait_timeout is unset, `Prepare` sets `RawSSHWaitTimeout` to
"200m" and `SSHWaitTimeout` to 200 minutes (the duration parser reading "200m"
as 200 minutes). The second default, "20m", is unreachable: `Prepare` leaves
`RawSSHWaitTimeout` at "20m" only when the input had "20m"; whatever
configuration `k` reaches the first assignment (line 113), the field is
non-empty when the second one (line 135) is reached, and on a non-empty field
the second assignment changes nothing. -/
theorem Prepare_ssh_wait_timeout_default {σ : Type} (c k : CommonConfig σ) (env : Env)
    (pc : PackerConfig) (hparse : (env.ParseDuration "200m").1 = 200 * Minute) :
    (c.RawSSHWaitTimeout = "" →
      (c.Prepare env pc).2.RawSSHWaitTimeout = "200m" ∧
      (c.Prepare env pc).2.SSHWaitTimeout = 200 * Minute) ∧
    ((c.Prepare env pc).2.RawSSHWaitTimeout = "20m" → c.RawSSHWaitTimeout = "20m") ∧
    (k.defaultRawSSHWaitTimeout.defaultFloppyFiles.defaultSSHPort.RawSSHWaitTimeout ≠ "" ∧
      k.defaultRawSSHWaitTimeout.defaultFloppyFiles.defaultSSHPort.defaultRawSSHWaitTimeout2 =
        k.defaultRawSSHWaitTimeout.defaultFloppyFiles.defaultSSHPort) := by
  have hguard :
      k.defaultRawSSHWaitTimeout.defaultFloppyFiles.defaultSSHPort.RawSSHWaitTimeout ≠ "" := by
    rw [CommonConfig.defaultSSHPort_eq, CommonConfig.defaultFloppyFiles_eq,
      CommonConfig.defaultRawSSHWaitTimeout_eq]
    show (if k.RawSSHWaitTimeout = "" then "200m" else k.RawSSHWaitTimeout) ≠ ""
    by_cases h : k.RawSSHWaitTimeout = ""
    · rw [if_pos h]; decide
    · rw [if_neg h]; exact h
  refine ⟨fun h => ?_, fun h => ?_, hguard, ?_⟩
  · rw [CommonConfig.Prepare_snd_eq]
    simp only [h, if_true]
    exact ⟨trivial, hparse⟩
  · rw [CommonConfig.Prepare_snd_eq] at h
    by_cases h0 : c.RawSSHWaitTimeout = ""
    · simp only [h0, if_true] at h
      exact absurd h (by decide)
    · simp only [h0, if_false] at h
      exact h
  · generalize k.defaultRawSSHWaitTimeout.defaultFloppyFiles.defaultSSHPort = d at hguard
    unfold CommonConfig.defaultRawSSHWaitTimeout2
    rw [if_neg hguard]

/-- C21 on `testConfig`, which sets no ssh_wait_timeout, and with the value
"20m" supplied. -/
theorem Prepare_ssh_wait_timeout_default_witness :
    (sampleEnv.ParseDuration "200m").1 = 200 * Minute ∧
    (testConfig.Prepare sampleEnv testBuild).2.RawSSHWaitTimeout = "200m" ∧
    (testConfig.Prepare sampleEnv testBuild).2.SSHWaitTimeout = 200 * Minute ∧
    ({ testConfig with RawSSHWaitTimeout := "20m" }.Prepare sampleEnv
      testBuild).2.RawSSHWaitTimeout = "20m" :=
  ⟨rfl, ((Prepare_ssh_wait_timeout_default testConfig testConfig sampleEnv testBuild rfl).1 rfl).1,
    ((Prepare_ssh_wait_timeout_default testConfig testConfig sampleEnv testBuild rfl).1 rfl).2,
    by decide⟩

end XenServer
